import Mathlib

/-!
Shallow embedding of the inventory/order consistency workflow of the
chuchobck/backend repository, together with theorems settling the frozen
claims about it.

Conventions used throughout:
* JS numbers that carry money or stock quantities are modelled as rationals.
* JS strings are modelled as Lean strings, except for the invoice-id
  machinery where the character-list representation is used so that the
  lexicographic database ordering can be reasoned about directly.
* Each controller is embedded as a pure function from a database slice and
  a request to a result paired with the database slice after the call; the
  error paths of the controllers return before any write, so they return
  the database unchanged, exactly as the source does.
* HTTP statuses of the source (400, 404, 409) are kept on the error types;
  in the specification taxonomy 400 is ValidationError (or
  InsufficientStockError for the stock message), 404 is NotFound and 409
  is ConflictError.
-/

namespace Backend

attribute [local semireducible] Rat.add Rat.mul Rat.sub Rat.inv

/-- Model of the JS expression "parseFloat(x.toFixed(3))": rounding of a
number to 3 decimal places, half away from zero for positive numbers
(ECMAScript toFixed picks the larger candidate on ties). -/
def round3 (x : ℚ) : ℚ :=
  ((x * 1000 + 1/2).floor : ℚ) / 1000

/-- Whitespace test used by the model of the JS String.prototype.trim. -/
def jsWs (c : Char) : Bool :=
  c.isWhitespace

/-- Model of the JS String.prototype.trim: drop leading and trailing
whitespace. -/
def jsTrim (s : String) : String :=
  ⟨(((s.data.dropWhile jsWs).reverse.dropWhile jsWs).reverse)⟩

/-! ### Data model for the manual stock adjustment controllers

Rows of the tables producto, ajuste_inventario and detalle_ajuste, as read
and written by the two ajustarStock controllers
(src/controllers/producto.controller.js and
src/controllers/productos.controller.js). -/

/-- A row of the producto table: the stock-ledger fields. -/
structure Producto where
  id_producto : String
  estado : String
  saldo_inicial : ℚ
  ingresos : ℚ
  egresos : ℚ
  ajustes : ℚ
  saldo_actual : ℚ
deriving Repr, DecidableEq

/-- A row of the ajuste_inventario table. -/
structure AjusteInventario where
  id_ajuste : Nat
  descripcion : String
  tipo : String
  num_productos : Nat
  estado : String
deriving Repr, DecidableEq

/-- A row of the detalle_ajuste table. -/
structure DetalleAjuste where
  id_ajuste : Nat
  id_producto : String
  cantidad : ℚ
deriving Repr, DecidableEq

/-- The database slice touched by the manual stock-adjustment endpoints.
The field siguiente_id_ajuste models the autoincrement id the store
assigns to a new ajuste_inventario row. -/
structure InventarioDB where
  productos : List Producto
  ajustes_inventario : List AjusteInventario
  detalles_ajuste : List DetalleAjuste
  siguiente_id_ajuste : Nat
deriving Repr, DecidableEq

/-- Model of prisma.producto.findUnique on id_producto. -/
def findUniqueProducto (db : InventarioDB) (id : String) : Option Producto :=
  db.productos.find? (fun p => p.id_producto == id)

/-- Request body and path parameter of POST /productos/:id/ajustar-stock.
The motivo field is a string; the empty string models a falsy motivo. -/
structure AjusteRequest where
  id_producto : String
  cantidad : ℚ
  motivo : String
  tipo : String
deriving Repr, DecidableEq

/-- The distinct error return sites of the ajustarStock controllers. -/
inductive AjusteError where
  | idRequerido
  | camposRequeridos
  | tipoInvalido
  | productoNoEncontrado
deriving Repr, DecidableEq

/-- HTTP status attached to each error return site. -/
def AjusteError.status : AjusteError → Nat
  | .idRequerido => 400
  | .camposRequeridos => 400
  | .tipoInvalido => 400
  | .productoNoEncontrado => 404

/-- Result of an ajustarStock call: on success the controller responds
with the id, the saldo_actual of the row it received back from the update,
and the applied signed adjustment. -/
inductive AjusteResultado where
  | error (e : AjusteError)
  | ok (id_producto : String) (saldo_actual : ℚ) (ajuste_aplicado : ℚ)
deriving Repr, DecidableEq

/-- The ajuste_inventario row both controllers create. -/
def nuevoAjusteInventario (db : InventarioDB) (req : AjusteRequest) : AjusteInventario :=
  { id_ajuste := db.siguiente_id_ajuste
    descripcion := if req.motivo == "" then "Ajuste manual de inventario" else req.motivo
    tipo := if req.tipo == "INC" then "E" else "S"
    num_productos := 1
    estado := "ACT" }

/-- The detalle_ajuste row both controllers create. -/
def nuevoDetalleAjuste (db : InventarioDB) (req : AjusteRequest) (ajuste : ℚ) : DetalleAjuste :=
  { id_ajuste := db.siguiente_id_ajuste
    id_producto := req.id_producto
    cantidad := |ajuste| }

/-- Embedding of ajustarStock from src/controllers/producto.controller.js
(lines 739 to 832).  The update increments both the ajustes and the
saldo_actual fields of the product; there is no check of the available
stock anywhere on the path. -/
def ajustarStock (db : InventarioDB) (req : AjusteRequest) :
    AjusteResultado × InventarioDB :=
  if req.id_producto == "" then (.error .idRequerido, db)
  else if req.cantidad == 0 || req.tipo == "" then (.error .camposRequeridos, db)
  else if req.tipo != "INC" && req.tipo != "DEC" then (.error .tipoInvalido, db)
  else
    match findUniqueProducto db req.id_producto with
    | none => (.error .productoNoEncontrado, db)
    | some p =>
      let ajuste : ℚ := if req.tipo == "INC" then req.cantidad else -req.cantidad
      let actualizado : Producto :=
        { p with ajustes := p.ajustes + ajuste, saldo_actual := p.saldo_actual + ajuste }
      let db' : InventarioDB :=
        { db with
          productos := db.productos.map (fun q =>
            if q.id_producto == req.id_producto then
              { q with ajustes := q.ajustes + ajuste, saldo_actual := q.saldo_actual + ajuste }
            else q)
          ajustes_inventario := db.ajustes_inventario ++ [nuevoAjusteInventario db req]
          detalles_ajuste := db.detalles_ajuste ++ [nuevoDetalleAjuste db req ajuste]
          siguiente_id_ajuste := db.siguiente_id_ajuste + 1 }
      (.ok actualizado.id_producto actualizado.saldo_actual ajuste, db')

/-- Embedding of ajustarStock from src/controllers/productos.controller.js
(lines 373 to 463).  Identical to the previous controller except that the
update increments only the ajustes field: saldo_actual is left as it was,
and the row echoed in the response therefore carries the old
saldo_actual. -/
def ajustarStockProductos (db : InventarioDB) (req : AjusteRequest) :
    AjusteResultado × InventarioDB :=
  if req.id_producto == "" then (.error .idRequerido, db)
  else if req.cantidad == 0 || req.tipo == "" then (.error .camposRequeridos, db)
  else if req.tipo != "INC" && req.tipo != "DEC" then (.error .tipoInvalido, db)
  else
    match findUniqueProducto db req.id_producto with
    | none => (.error .productoNoEncontrado, db)
    | some p =>
      let ajuste : ℚ := if req.tipo == "INC" then req.cantidad else -req.cantidad
      let actualizado : Producto := { p with ajustes := p.ajustes + ajuste }
      let db' : InventarioDB :=
        { db with
          productos := db.productos.map (fun q =>
            if q.id_producto == req.id_producto then
              { q with ajustes := q.ajustes + ajuste }
            else q)
          ajustes_inventario := db.ajustes_inventario ++ [nuevoAjusteInventario db req]
          detalles_ajuste := db.detalles_ajuste ++ [nuevoDetalleAjuste db req ajuste]
          siguiente_id_ajuste := db.siguiente_id_ajuste + 1 }
      (.ok actualizado.id_producto actualizado.saldo_actual ajuste, db')

/-! ### Claims C1, C2 and C10: behaviour of the manual stock adjustment -/

set_option maxRecDepth 16000

/-- Concrete database for claim C1: one active product with
current balance 30 and empty adjustment log. -/
def dbC1 : InventarioDB :=
  { productos := [{ id_producto := "P1", estado := "ACT", saldo_inicial := 30,
                    ingresos := 0, egresos := 0, ajustes := 0, saldo_actual := 30 }]
    ajustes_inventario := []
    detalles_ajuste := []
    siguiente_id_ajuste := 1 }

/-- Concrete request for claim C1: manual DEC adjustment of 50 units. -/
def reqC1 : AjusteRequest :=
  { id_producto := "P1", cantidad := 50, motivo := "merma", tipo := "DEC" }

/-- C1 counterexample: a manual adjustment of minus 50 units on a product
whose saldo_actual is 30 is NOT rejected: ajustarStock answers ok and the
stored current balance becomes -20 instead of remaining 30, refuting the
claimed InsufficientStockError rejection and the preservation of
current_balance being nonnegative. -/
theorem ajustarStock_dec_insuficiente_no_rechazado :
    (ajustarStock dbC1 reqC1).1 = .ok "P1" (-20) (-50) ∧
      (findUniqueProducto (ajustarStock dbC1 reqC1).2 "P1").map Producto.saldo_actual
        = some (-20) := by
  decide

/-- C1 (amended): for every manual stock adjustment with direction DEC of
a nonzero quantity q on an existing product, the operation always
succeeds: there is no stock-sufficiency check at all.  It decrements both
the ajustes and the saldo_actual fields by q (even below zero, as the
hypotheses allow saldo_actual smaller than q) and appends one
ajuste_inventario row of direction S and one detalle_ajuste row of
quantity the absolute value of q. -/
theorem ajustarStock_dec_comportamiento (db : InventarioDB) (req : AjusteRequest)
    (p : Producto) (hid : req.id_producto ≠ "") (hq : req.cantidad ≠ 0)
    (ht : req.tipo = "DEC")
    (hp : findUniqueProducto db req.id_producto = some p) :
    (ajustarStock db req).1
        = .ok p.id_producto (p.saldo_actual - req.cantidad) (-req.cantidad) ∧
      (ajustarStock db req).2.productos
        = db.productos.map (fun q =>
            if q.id_producto == req.id_producto then
              { q with ajustes := q.ajustes - req.cantidad,
                       saldo_actual := q.saldo_actual - req.cantidad }
            else q) ∧
      (ajustarStock db req).2.ajustes_inventario
        = db.ajustes_inventario ++ [nuevoAjusteInventario db req] ∧
      (ajustarStock db req).2.detalles_ajuste
        = db.detalles_ajuste ++ [nuevoDetalleAjuste db req (-req.cantidad)] := by
  have hid' : (req.id_producto == "") = false := beq_eq_false_iff_ne.mpr hid
  have hq' : (req.cantidad == 0) = false := beq_eq_false_iff_ne.mpr hq
  unfold ajustarStock
  rw [hid', hp, ht]
  simp [sub_eq_add_neg, hq]

/-- C1 witness: the amended theorem applied to the concrete database and
request of the counterexample. -/
theorem ajustarStock_dec_comportamiento_witness :
    (ajustarStock dbC1 reqC1).1 = .ok "P1" (30 - 50) (-50) := by
  have h := ajustarStock_dec_comportamiento dbC1 reqC1
    { id_producto := "P1", estado := "ACT", saldo_inicial := 30,
      ingresos := 0, egresos := 0, ajustes := 0, saldo_actual := 30 }
    (by decide) (by decide) rfl
    (by decide)
  exact h.1

/-- Concrete database for claim C2. -/
def dbC2 : InventarioDB :=
  { productos := [{ id_producto := "P1", estado := "ACT", saldo_inicial := 30,
                    ingresos := 0, egresos := 0, ajustes := 0, saldo_actual := 30 }]
    ajustes_inventario := []
    detalles_ajuste := []
    siguiente_id_ajuste := 1 }

/-- Concrete request for claim C2: a strictly negative quantity. -/
def reqC2 : AjusteRequest :=
  { id_producto := "P1", cantidad := -5, motivo := "", tipo := "INC" }

/-- C2 counterexample: a request with quantity -5 (strictly negative,
hence claimed to fail with ValidationError) is accepted: only a quantity
that is exactly 0 is caught by the falsy-check of the controller, so the
INC adjustment of -5 units succeeds and silently decrements the balance
from 30 to 25. -/
theorem ajustarStock_cantidad_negativa_aceptada :
    reqC2.cantidad < 0 ∧ (ajustarStock dbC2 reqC2).1 = .ok "P1" 25 (-5) := by
  constructor
  · show (-5 : ℚ) < 0
    norm_num
  · decide

/-- C2 (amended): with a nonempty product id, a manual adjustment request
fails with a 400 error (ValidationError) when the quantity is exactly 0
or the direction is not INC or DEC, and fails with the 404 error
(NotFound) when the inputs are valid but the product does not exist; in
each failure case the database is returned unchanged (no product field
and no adjustment-log row is written).  Strictly negative quantities are
not rejected (see the counterexample). -/
theorem ajustarStock_errores (db : InventarioDB) (req : AjusteRequest)
    (hid : req.id_producto ≠ "") :
    ((req.cantidad = 0 ∨ (req.tipo ≠ "INC" ∧ req.tipo ≠ "DEC")) →
      ∃ e, ajustarStock db req = (.error e, db) ∧ e.status = 400) ∧
    (req.cantidad ≠ 0 → (req.tipo = "INC" ∨ req.tipo = "DEC") →
      findUniqueProducto db req.id_producto = none →
      ajustarStock db req = (.error .productoNoEncontrado, db) ∧
        AjusteError.status .productoNoEncontrado = 404) := by
  have hid' : (req.id_producto == "") = false := beq_eq_false_iff_ne.mpr hid
  constructor
  · rintro (hq | ⟨h1, h2⟩)
    · refine ⟨.camposRequeridos, ?_, rfl⟩
      unfold ajustarStock
      rw [hid']
      simp [hq]
    · by_cases hq : req.cantidad = 0
      · refine ⟨.camposRequeridos, ?_, rfl⟩
        unfold ajustarStock
        rw [hid']
        simp [hq]
      · by_cases hv : req.tipo = ""
        · refine ⟨.camposRequeridos, ?_, rfl⟩
          unfold ajustarStock
          rw [hid']
          simp [hv]
        · refine ⟨.tipoInvalido, ?_, rfl⟩
          unfold ajustarStock
          rw [hid']
          simp [hq, hv, h1, h2]
  · intro hq ht hnone
    have hq' : (req.cantidad == 0) = false := beq_eq_false_iff_ne.mpr hq
    have hv' : req.tipo ≠ "" := by
      rcases ht with h | h <;> simp [h]
    refine ⟨?_, rfl⟩
    unfold ajustarStock
    rw [hid', hnone]
    rcases ht with h | h <;> simp [hq', h]

/-- C2 witness: the amended theorem applied at a concrete quantity-zero
request and at the concrete missing-product request. -/
theorem ajustarStock_errores_witness :
    ∃ e, ajustarStock dbC2 { id_producto := "P1", cantidad := 0, motivo := "", tipo := "INC" }
      = (.error e, dbC2) ∧ e.status = 400 := by
  have h := ajustarStock_errores dbC2
    { id_producto := "P1", cantidad := 0, motivo := "", tipo := "INC" }
    (by decide)
  exact h.1 (Or.inl rfl)

/-- Concrete database for claim C10. -/
def dbC10 : InventarioDB :=
  { productos := [{ id_producto := "P1", estado := "ACT", saldo_inicial := 30,
                    ingresos := 0, egresos := 0, ajustes := 0, saldo_actual := 30 }]
    ajustes_inventario := []
    detalles_ajuste := []
    siguiente_id_ajuste := 1 }

/-- Concrete request for claim C10: a perfectly valid INC adjustment. -/
def reqC10 : AjusteRequest :=
  { id_producto := "P1", cantidad := 5, motivo := "conteo", tipo := "INC" }

/-- C10 counterexample: on the same valid request the two coexisting
ajustarStock implementations produce different product post-states: the
producto.controller version moves saldo_actual from 30 to 35 while the
productos.controller version leaves saldo_actual at 30. -/
theorem ajustarStock_variantes_divergen :
    (findUniqueProducto (ajustarStock dbC10 reqC10).2 "P1").map Producto.saldo_actual
        = some 35 ∧
      (findUniqueProducto (ajustarStockProductos dbC10 reqC10).2 "P1").map
          Producto.saldo_actual = some 30 ∧
      (35 : ℚ) ≠ 30 := by
  refine ⟨by decide, by decide, by norm_num⟩

/-- C10 (amended): for every valid request (existing product, nonzero
quantity, direction INC or DEC) the two implementations write identical
ajuste_inventario and detalle_ajuste rows and update the ajustes field
identically, but they are NOT behaviourally equivalent: the
producto.controller version also adds the signed adjustment to
saldo_actual, while the productos.controller version leaves saldo_actual
unchanged (and echoes the stale balance in its response). -/
theorem ajustarStock_variantes_comparacion (db : InventarioDB) (req : AjusteRequest)
    (p : Producto) (a : ℚ) (hid : req.id_producto ≠ "") (hq : req.cantidad ≠ 0)
    (ht : req.tipo = "INC" ∨ req.tipo = "DEC")
    (hp : findUniqueProducto db req.id_producto = some p)
    (ha : a = if req.tipo == "INC" then req.cantidad else -req.cantidad) :
    (ajustarStock db req).2.ajustes_inventario
        = (ajustarStockProductos db req).2.ajustes_inventario ∧
      (ajustarStock db req).2.detalles_ajuste
        = (ajustarStockProductos db req).2.detalles_ajuste ∧
      (ajustarStock db req).1 = .ok p.id_producto (p.saldo_actual + a) a ∧
      (ajustarStockProductos db req).1 = .ok p.id_producto p.saldo_actual a ∧
      (ajustarStock db req).2.productos
        = db.productos.map (fun q =>
            if q.id_producto == req.id_producto then
              { q with ajustes := q.ajustes + a, saldo_actual := q.saldo_actual + a }
            else q) ∧
      (ajustarStockProductos db req).2.productos
        = db.productos.map (fun q =>
            if q.id_producto == req.id_producto then
              { q with ajustes := q.ajustes + a }
            else q) := by
  have hid' : (req.id_producto == "") = false := beq_eq_false_iff_ne.mpr hid
  have hq' : (req.cantidad == 0) = false := beq_eq_false_iff_ne.mpr hq
  unfold ajustarStock ajustarStockProductos
  rw [hid', hp]
  subst ha
  rcases ht with h | h <;> simp [hq', hq, h]

/-- C10 witness: the comparison theorem applied to the concrete database
and request of the counterexample. -/
theorem ajustarStock_variantes_comparacion_witness :
    (ajustarStock dbC10 reqC10).1 = .ok "P1" (30 + 5) 5 ∧
      (ajustarStockProductos dbC10 reqC10).1 = .ok "P1" 30 5 := by
  have h := ajustarStock_variantes_comparacion dbC10 reqC10
    { id_producto := "P1", estado := "ACT", saldo_inicial := 30,
      ingresos := 0, egresos := 0, ajustes := 0, saldo_actual := 30 } 5
    (by decide) (by decide)
    (Or.inl rfl) (by decide) (by decide)
  exact ⟨h.2.2.1, h.2.2.2.1⟩

/-! ### Data model for the purchase-order controller
(src/controllers/compra.controller.js) -/

/-- A row of the proveedor table (the fields the controller reads). -/
structure Proveedor where
  id_proveedor : String
  estado : String
deriving Repr, DecidableEq

/-- A request line of a purchase-order create or update call. -/
structure DetalleCompraReq where
  id_producto : String
  cantidad : ℚ
  costo_unitario : ℚ
deriving Repr, DecidableEq

/-- A stored row of the detalle_compra table. -/
structure DetalleCompra where
  id_compra : String
  id_producto : String
  cantidad : ℤ
  costo_unitario : ℚ
  subtotal : ℚ
deriving Repr, DecidableEq

/-- A row of the compra table.  The recepciones field models the
aggregate count of recepcion rows referencing the order, which the
controller reads through the included count. -/
structure Compra where
  id_compra : String
  id_proveedor : String
  subtotal : ℚ
  total : ℚ
  estado : String
  recepciones : Nat
deriving Repr, DecidableEq

/-- The database slice touched by the purchase-order endpoints.  The
field nuevo_id_compra models the id the store assigns to a freshly
created order. -/
structure ComprasDB where
  proveedores : List Proveedor
  productos : List Producto
  compras : List Compra
  detalles_compra : List DetalleCompra
  nuevo_id_compra : String
deriving Repr, DecidableEq

/-- The distinct error return sites of the three purchase-order
endpoints. -/
inductive CompraError where
  | datosRequeridos
  | idInvalido
  | detallesRequeridos
  | duplicado (id_producto : String)
  | idProductoRequerido
  | cantidadInvalida (id_producto : String)
  | cantidadExcesiva (id_producto : String)
  | costoInvalido (id_producto : String)
  | costoExcesivo (id_producto : String)
  | proveedorNoExiste
  | proveedorInactivo
  | productoNoExiste (id_producto : String)
  | productoInactivo (id_producto : String)
  | compraNoExiste
  | estadoNoPendiente (estado : String)
  | tieneRecepciones (n : Nat)
  | yaAnulada
  | anularConRecepciones (n : Nat)
deriving Repr, DecidableEq

/-- HTTP status attached to each error return site of the purchase-order
endpoints (in the specification taxonomy: 400 ValidationError, 404
NotFound, 409 ConflictError). -/
def CompraError.status : CompraError → Nat
  | .datosRequeridos => 400
  | .idInvalido => 400
  | .detallesRequeridos => 400
  | .duplicado _ => 400
  | .idProductoRequerido => 400
  | .cantidadInvalida _ => 400
  | .cantidadExcesiva _ => 400
  | .costoInvalido _ => 400
  | .costoExcesivo _ => 400
  | .proveedorNoExiste => 404
  | .proveedorInactivo => 400
  | .productoNoExiste _ => 404
  | .productoInactivo _ => 400
  | .compraNoExiste => 404
  | .estadoNoPendiente _ => 409
  | .tieneRecepciones _ => 409
  | .yaAnulada => 400
  | .anularConRecepciones _ => 409

/-- Recursion behind validarDetallesSinDuplicados: the JS loop walks the
lines keeping a set of product ids already seen and reports the first id
seen twice. -/
def buscarDuplicado : List String → List DetalleCompraReq → Option String
  | _, [] => none
  | vistos, d :: rest =>
    if vistos.contains d.id_producto then some d.id_producto
    else buscarDuplicado (d.id_producto :: vistos) rest

/-- Embedding of validarDetallesSinDuplicados
(compra.controller.js lines 17 to 26): some id means a duplicate was
found.  Note the raw, untrimmed ids are compared. -/
def validarDetallesSinDuplicados (detalles : List DetalleCompraReq) : Option String :=
  buscarDuplicado [] detalles

/-- Basic per-line validation shared by crearCompra and
actualizarCompra (the first failing check wins). -/
def validarDetalleBasico (item : DetalleCompraReq) : Option CompraError :=
  if item.id_producto == "" || (jsTrim item.id_producto).length == 0 then
    some .idProductoRequerido
  else if item.cantidad ≤ 0 then some (.cantidadInvalida item.id_producto)
  else if item.cantidad > 999999 then some (.cantidadExcesiva item.id_producto)
  else if item.costo_unitario ≤ 0 then some (.costoInvalido item.id_producto)
  else if item.costo_unitario > 999999999/1000 then some (.costoExcesivo item.id_producto)
  else none

/-- The validation loop over all request lines: first error wins. -/
def validarDetalles : List DetalleCompraReq → Option CompraError
  | [] => none
  | d :: rest =>
    match validarDetalleBasico d with
    | some e => some e
    | none => validarDetalles rest

/-- An entry of productosValidados: trimmed id, parseFloat of the cost
(identity on a number) and parseInt of the quantity (truncation for a
positive quantity written in decimal notation). -/
structure DetalleValidado where
  id_producto : String
  costo_unitario : ℚ
  cantidad : ℤ
deriving Repr, DecidableEq

/-- The per-line product existence and estado checks of crearCompra and
actualizarCompra, producing productosValidados on success. -/
def validarProductos (productos : List Producto) :
    List DetalleCompraReq → Except CompraError (List DetalleValidado)
  | [] => .ok []
  | item :: rest =>
    match productos.find? (fun p => p.id_producto == jsTrim item.id_producto) with
    | none => .error (.productoNoExiste item.id_producto)
    | some p =>
      if p.estado != "ACT" then .error (.productoInactivo item.id_producto)
      else
        match validarProductos productos rest with
        | .error e => .error e
        | .ok ds =>
          .ok ({ id_producto := jsTrim item.id_producto,
                 costo_unitario := item.costo_unitario,
                 cantidad := item.cantidad.floor } :: ds)

/-- The running raw sum subtotalTotal: sum of quantity times unit cost
over the validated lines, with no intermediate rounding. -/
def subtotalCrudo (ds : List DetalleValidado) : ℚ :=
  (ds.map (fun d => (d.cantidad : ℚ) * d.costo_unitario)).sum

/-- detallesConCalculos: the stored line rows, each with its own
3-decimal-rounded subtotal. -/
def conCalculos (idc : String) (ds : List DetalleValidado) : List DetalleCompra :=
  ds.map (fun d =>
    { id_compra := idc, id_producto := d.id_producto, cantidad := d.cantidad,
      costo_unitario := d.costo_unitario,
      subtotal := round3 ((d.cantidad : ℚ) * d.costo_unitario) })

/-- Result of crearCompra or actualizarCompra: on success the created or
updated order header and its stored line rows. -/
inductive CompraResultado where
  | error (e : CompraError)
  | ok (compra : Compra) (rows : List DetalleCompra)
deriving Repr, DecidableEq

/-- Request body of POST /compras. -/
structure CrearCompraRequest where
  id_proveedor : String
  detalles : List DetalleCompraReq
deriving Repr, DecidableEq

/-- Embedding of crearCompra (compra.controller.js lines 252 to 438).
The header stores the UNROUNDED raw sum as subtotal and its 3-decimal
rounding as total; each line row stores its own rounded subtotal. -/
def crearCompra (db : ComprasDB) (req : CrearCompraRequest) :
    CompraResultado × ComprasDB :=
  if req.id_proveedor == "" || req.detalles.length == 0 then (.error .datosRequeridos, db)
  else
    match validarDetallesSinDuplicados req.detalles with
    | some pid => (.error (.duplicado pid), db)
    | none =>
      match validarDetalles req.detalles with
      | some e => (.error e, db)
      | none =>
        match db.proveedores.find? (fun pr => pr.id_proveedor == jsTrim req.id_proveedor) with
        | none => (.error .proveedorNoExiste, db)
        | some pr =>
          if pr.estado != "ACT" then (.error .proveedorInactivo, db)
          else
            match validarProductos db.productos req.detalles with
            | .error e => (.error e, db)
            | .ok ds =>
              let st := subtotalCrudo ds
              let compra : Compra :=
                { id_compra := db.nuevo_id_compra, id_proveedor := jsTrim req.id_proveedor,
                  subtotal := st, total := round3 st, estado := "PEN", recepciones := 0 }
              let rows := conCalculos db.nuevo_id_compra ds
              (.ok compra rows,
               { db with compras := db.compras ++ [compra],
                         detalles_compra := db.detalles_compra ++ rows })

/-- Request of PUT /compras/:id. -/
structure ActualizarCompraRequest where
  id_compra : String
  detalles : List DetalleCompraReq
deriving Repr, DecidableEq

/-- Embedding of actualizarCompra (compra.controller.js lines 444 to
654): input validation, then the order must exist, be PEN and have no
receipts; the line rows are replaced wholesale and the totals
recomputed. -/
def actualizarCompra (db : ComprasDB) (req : ActualizarCompraRequest) :
    CompraResultado × ComprasDB :=
  if req.id_compra == "" || (jsTrim req.id_compra).length == 0 then (.error .idInvalido, db)
  else if req.detalles.length == 0 then (.error .detallesRequeridos, db)
  else
    match validarDetallesSinDuplicados req.detalles with
    | some pid => (.error (.duplicado pid), db)
    | none =>
      match validarDetalles req.detalles with
      | some e => (.error e, db)
      | none =>
        match db.compras.find? (fun c => c.id_compra == jsTrim req.id_compra) with
        | none => (.error .compraNoExiste, db)
        | some c =>
          if c.estado != "PEN" then (.error (.estadoNoPendiente c.estado), db)
          else if c.recepciones > 0 then (.error (.tieneRecepciones c.recepciones), db)
          else
            match validarProductos db.productos req.detalles with
            | .error e => (.error e, db)
            | .ok ds =>
              let st := subtotalCrudo ds
              let rows := conCalculos (jsTrim req.id_compra) ds
              (.ok { c with subtotal := st, total := round3 st } rows,
               { db with
                 compras := db.compras.map (fun x =>
                   if x.id_compra == jsTrim req.id_compra then
                     { x with subtotal := st, total := round3 st }
                   else x),
                 detalles_compra :=
                   db.detalles_compra.filter (fun r => r.id_compra != jsTrim req.id_compra)
                     ++ rows })

/-- Result of anularCompra: on success the controller answers with the
order id and its new estado. -/
inductive AnularResultado where
  | error (e : CompraError)
  | ok (id_compra : String) (estado : String)
deriving Repr, DecidableEq

/-- Embedding of anularCompra (compra.controller.js lines 660 to 736):
the order must exist, must not already be ANU (a 400 validation answer)
and must have no receipts (a 409 conflict answer); then its estado is set
to ANU. -/
def anularCompra (db : ComprasDB) (id_compra : String) :
    AnularResultado × ComprasDB :=
  if id_compra == "" || (jsTrim id_compra).length == 0 then (.error .idInvalido, db)
  else
    match db.compras.find? (fun c => c.id_compra == jsTrim id_compra) with
    | none => (.error .compraNoExiste, db)
    | some c =>
      if c.estado == "ANU" then (.error .yaAnulada, db)
      else if c.recepciones > 0 then (.error (.anularConRecepciones c.recepciones), db)
      else
        (.ok (jsTrim id_compra) "ANU",
         { db with compras := db.compras.map (fun x =>
             if x.id_compra == jsTrim id_compra then { x with estado := "ANU" } else x) })

/-! ### Claims C3 to C6: purchase-order behaviour -/

/-- Success shape of crearCompra: the header and rows are built from the
validated lines. -/
lemma crearCompra_ok_shape (db : ComprasDB) (req : CrearCompraRequest)
    (c : Compra) (rows : List DetalleCompra) (db2 : ComprasDB)
    (h : crearCompra db req = (.ok c rows, db2)) :
    ∃ ds, validarProductos db.productos req.detalles = .ok ds ∧
      c.subtotal = subtotalCrudo ds ∧ c.total = round3 (subtotalCrudo ds) ∧
      rows = conCalculos db.nuevo_id_compra ds := by
  unfold crearCompra at h
  split at h
  · simp at h
  · split at h
    · simp at h
    · split at h
      · simp at h
      · split at h
        · simp at h
        · split at h
          · simp at h
          · split at h
            · simp at h
            · rename_i ds hds
              simp only [Prod.mk.injEq, CompraResultado.ok.injEq] at h
              exact ⟨ds, hds, by rw [← h.1.1], by rw [← h.1.1], h.1.2.symm⟩

/-- Success shape of actualizarCompra. -/
lemma actualizarCompra_ok_shape (db : ComprasDB) (req : ActualizarCompraRequest)
    (c : Compra) (rows : List DetalleCompra) (db2 : ComprasDB)
    (h : actualizarCompra db req = (.ok c rows, db2)) :
    ∃ ds, validarProductos db.productos req.detalles = .ok ds ∧
      c.subtotal = subtotalCrudo ds ∧ c.total = round3 (subtotalCrudo ds) ∧
      rows = conCalculos (jsTrim req.id_compra) ds := by
  unfold actualizarCompra at h
  split at h
  · simp at h
  · split at h
    · simp at h
    · split at h
      · simp at h
      · split at h
        · simp at h
        · split at h
          · simp at h
          · split at h
            · simp at h
            · split at h
              · simp at h
              · split at h
                · simp at h
                · rename_i ds hds
                  simp only [Prod.mk.injEq, CompraResultado.ok.injEq] at h
                  exact ⟨ds, hds, by rw [← h.1.1], by rw [← h.1.1], h.1.2.symm⟩

/-- The raw products recoverable from the stored rows coincide with the
validated lines they were built from. -/
lemma conCalculos_map_productos (idc : String) (ds : List DetalleValidado) :
    (conCalculos idc ds).map (fun r => (r.cantidad : ℚ) * r.costo_unitario)
      = ds.map (fun d => (d.cantidad : ℚ) * d.costo_unitario) := by
  unfold conCalculos
  rw [List.map_map]
  rfl

/-- Each stored row of conCalculos carries its own rounded subtotal. -/
lemma conCalculos_subtotal (idc : String) (ds : List DetalleValidado) :
    ∀ r ∈ conCalculos idc ds, r.subtotal = round3 ((r.cantidad : ℚ) * r.costo_unitario) := by
  intro r hr
  simp only [conCalculos, List.mem_map] at hr
  obtain ⟨d, _, rfl⟩ := hr
  rfl

/-- C3 (amended): for every successfully created or updated purchase
order, each stored line subtotal is round3 of quantity times unit cost,
and the order total is round3 of the UNROUNDED raw sum of quantity times
unit cost over the lines (the raw sum is also stored verbatim as the
order subtotal).  The total is NOT in general round3 of the sum of the
already-rounded line subtotals (see the counterexample); the two agree
whenever every line product has at most 3 decimals, as in Scenario A
where the total is 87.50. -/
theorem compra_totales (db : ComprasDB) :
    (∀ req c rows db2, crearCompra db req = (.ok c rows, db2) →
      (∀ r ∈ rows, r.subtotal = round3 ((r.cantidad : ℚ) * r.costo_unitario)) ∧
      c.subtotal = (rows.map (fun r => (r.cantidad : ℚ) * r.costo_unitario)).sum ∧
      c.total = round3 ((rows.map (fun r => (r.cantidad : ℚ) * r.costo_unitario)).sum)) ∧
    (∀ req c rows db2, actualizarCompra db req = (.ok c rows, db2) →
      (∀ r ∈ rows, r.subtotal = round3 ((r.cantidad : ℚ) * r.costo_unitario)) ∧
      c.subtotal = (rows.map (fun r => (r.cantidad : ℚ) * r.costo_unitario)).sum ∧
      c.total = round3 ((rows.map (fun r => (r.cantidad : ℚ) * r.costo_unitario)).sum)) := by
  constructor
  · intro req c rows db2 h
    obtain ⟨ds, _, hsub, htot, hrows⟩ := crearCompra_ok_shape db req c rows db2 h
    subst hrows
    refine ⟨conCalculos_subtotal _ _, ?_, ?_⟩
    · rw [conCalculos_map_productos, hsub, subtotalCrudo]
    · rw [conCalculos_map_productos, htot, subtotalCrudo]
  · intro req c rows db2 h
    obtain ⟨ds, _, hsub, htot, hrows⟩ := actualizarCompra_ok_shape db req c rows db2 h
    subst hrows
    refine ⟨conCalculos_subtotal _ _, ?_, ?_⟩
    · rw [conCalculos_map_productos, hsub, subtotalCrudo]
    · rw [conCalculos_map_productos, htot, subtotalCrudo]

/-- Concrete database for the C3 counterexample: active supplier and two
active products. -/
def dbC3 : ComprasDB :=
  { proveedores := [{ id_proveedor := "PR", estado := "ACT" }]
    productos :=
      [{ id_producto := "A", estado := "ACT", saldo_inicial := 0, ingresos := 0,
         egresos := 0, ajustes := 0, saldo_actual := 0 },
       { id_producto := "B", estado := "ACT", saldo_inicial := 0, ingresos := 0,
         egresos := 0, ajustes := 0, saldo_actual := 0 }]
    compras := []
    detalles_compra := []
    nuevo_id_compra := "C-001" }

/-- Concrete request for the C3 counterexample: two lines of one unit at
cost 0.0006 each. -/
def reqC3 : CrearCompraRequest :=
  { id_proveedor := "PR"
    detalles := [{ id_producto := "A", cantidad := 1, costo_unitario := 3/5000 },
                 { id_producto := "B", cantidad := 1, costo_unitario := 3/5000 }] }

/-- The order header the C3 counterexample produces. -/
def compraC3 : Compra :=
  { id_compra := "C-001", id_proveedor := "PR", subtotal := 3/2500, total := 1/1000,
    estado := "PEN", recepciones := 0 }

/-- The stored line rows the C3 counterexample produces. -/
def rowsC3 : List DetalleCompra :=
  [{ id_compra := "C-001", id_producto := "A", cantidad := 1, costo_unitario := 3/5000,
     subtotal := 1/1000 },
   { id_compra := "C-001", id_producto := "B", cantidad := 1, costo_unitario := 3/5000,
     subtotal := 1/1000 }]

/-- C3 counterexample: an order with two lines of one unit at cost 0.0006
is created with stored line subtotals 0.001 each, whose (rounded) sum is
0.002, yet the stored order total is 0.001: the total does not equal the
sum of the line subtotals. -/
theorem crearCompra_total_contraejemplo :
    (crearCompra dbC3 reqC3).1 = .ok compraC3 rowsC3 ∧
      (rowsC3.map DetalleCompra.subtotal).sum = 1/500 ∧
      round3 ((rowsC3.map DetalleCompra.subtotal).sum) = 1/500 ∧
      compraC3.total = 1/1000 ∧
      ((1 : ℚ)/1000) ≠ 1/500 := by
  refine ⟨by decide, by decide,
    by decide, by decide,
    by decide⟩

/-- Scenario A database for the C3 witness. -/
def dbC3w : ComprasDB :=
  { proveedores := [{ id_proveedor := "PR", estado := "ACT" }]
    productos :=
      [{ id_producto := "P1", estado := "ACT", saldo_inicial := 0, ingresos := 0,
         egresos := 0, ajustes := 0, saldo_actual := 0 },
       { id_producto := "P2", estado := "ACT", saldo_inicial := 0, ingresos := 0,
         egresos := 0, ajustes := 0, saldo_actual := 0 }]
    compras := []
    detalles_compra := []
    nuevo_id_compra := "C-002" }

/-- Scenario A request: 10 units at 5.00 and 3 units at 12.50. -/
def reqC3w : CrearCompraRequest :=
  { id_proveedor := "PR"
    detalles := [{ id_producto := "P1", cantidad := 10, costo_unitario := 5 },
                 { id_producto := "P2", cantidad := 3, costo_unitario := 25/2 }] }

/-- The order header created in Scenario A. -/
def compraC3w : Compra :=
  { id_compra := "C-002", id_proveedor := "PR", subtotal := 175/2, total := 175/2,
    estado := "PEN", recepciones := 0 }

/-- The line rows created in Scenario A. -/
def rowsC3w : List DetalleCompra :=
  [{ id_compra := "C-002", id_producto := "P1", cantidad := 10, costo_unitario := 5,
     subtotal := 50 },
   { id_compra := "C-002", id_producto := "P2", cantidad := 3, costo_unitario := 25/2,
     subtotal := 75/2 }]

/-- C3 witness: the amended theorem applied to Scenario A, whose total is
87.50. -/
theorem compra_totales_witness :
    compraC3w.total
        = round3 ((rowsC3w.map (fun r => (r.cantidad : ℚ) * r.costo_unitario)).sum) ∧
      compraC3w.total = 175/2 := by
  have h := (compra_totales dbC3w).1 reqC3w compraC3w rowsC3w
    (crearCompra dbC3w reqC3w).2 (by decide)
  exact ⟨h.2.2, by decide⟩

/-- Concrete database for the C4 counterexample: an order that is both
already canceled and has one associated receipt. -/
def dbC4 : ComprasDB :=
  { proveedores := [], productos := [],
    compras := [{ id_compra := "C1", id_proveedor := "PR", subtotal := 0, total := 0,
                  estado := "ANU", recepciones := 1 }]
    detalles_compra := [], nuevo_id_compra := "X" }

/-- C4 counterexample: canceling an order that has one receipt but is in
state ANU fails with the 400 validation answer (already canceled), not
with the claimed 409 conflict answer. -/
theorem anularCompra_anulada_no_conflicto :
    (anularCompra dbC4 "C1").1 = .error .yaAnulada ∧
      CompraError.status .yaAnulada = 400 ∧ (400 : Nat) ≠ 409 := by
  refine ⟨by decide, rfl, by decide⟩

/-- C4 (amended): for every order with at least one receipt, the update
operation always fails with a 409 conflict (whatever the order state, via
the not-PEN check or the receipts check) and leaves the database
unchanged; the cancel operation also always fails and leaves the
database unchanged, but its status is 400 (already canceled) when the
order state is ANU and 409 (receipts exist) otherwise. -/
theorem compra_con_recepciones_bloqueada (db : ComprasDB) (id : String) (c : Compra)
    (hid : (jsTrim id).length ≠ 0)
    (hfound : db.compras.find? (fun x => x.id_compra == jsTrim id) = some c)
    (hrec : 1 ≤ c.recepciones) :
    (∀ req : ActualizarCompraRequest, req.id_compra = id →
      req.detalles.length ≠ 0 →
      validarDetallesSinDuplicados req.detalles = none →
      validarDetalles req.detalles = none →
      ∃ e, actualizarCompra db req = (.error e, db) ∧ e.status = 409) ∧
    (∃ e, anularCompra db id = (.error e, db) ∧
      e.status = if c.estado = "ANU" then 400 else 409) := by
  have hid0 : (id == "") = false := by
    apply beq_eq_false_iff_ne.mpr
    intro h
    subst h
    exact hid rfl
  have hidlen : ((jsTrim id).length == 0) = false := by
    exact beq_eq_false_iff_ne.mpr hid
  constructor
  · intro req hreq hdet hnodup hbasic
    subst hreq
    have hdet' : (req.detalles.length == 0) = false := beq_eq_false_iff_ne.mpr hdet
    by_cases hpen : c.estado = "PEN"
    · refine ⟨.tieneRecepciones c.recepciones, ?_, rfl⟩
      unfold actualizarCompra
      rw [hid0, hidlen, hdet', hnodup, hbasic, hfound]
      simp [hpen, Nat.lt_of_lt_of_le Nat.zero_lt_one hrec]
    · refine ⟨.estadoNoPendiente c.estado, ?_, rfl⟩
      unfold actualizarCompra
      rw [hid0, hidlen, hdet', hnodup, hbasic, hfound]
      simp [hpen]
  · by_cases hanu : c.estado = "ANU"
    · refine ⟨.yaAnulada, ?_, by simp [hanu, CompraError.status]⟩
      unfold anularCompra
      rw [hid0, hidlen, hfound]
      simp [hanu]
    · refine ⟨.anularConRecepciones c.recepciones, ?_, by simp [hanu, CompraError.status]⟩
      unfold anularCompra
      rw [hid0, hidlen, hfound]
      simp [hanu, Nat.lt_of_lt_of_le Nat.zero_lt_one hrec]

/-- Database for the C4 witness: a PEN order with one receipt. -/
def dbC4w : ComprasDB :=
  { proveedores := [], productos := [],
    compras := [{ id_compra := "C1", id_proveedor := "PR", subtotal := 0, total := 0,
                  estado := "PEN", recepciones := 1 }]
    detalles_compra := [], nuevo_id_compra := "X" }

/-- C4 witness: the amended theorem applied to a concrete PEN order with
one receipt and a concrete well-formed update request. -/
theorem compra_con_recepciones_bloqueada_witness :
    (∃ e, actualizarCompra dbC4w
        { id_compra := "C1",
          detalles := [{ id_producto := "P1", cantidad := 1, costo_unitario := 2 }] }
      = (.error e, dbC4w) ∧ e.status = 409) ∧
    (∃ e, anularCompra dbC4w "C1" = (.error e, dbC4w) ∧ e.status = 409) := by
  have h := compra_con_recepciones_bloqueada dbC4w "C1"
    { id_compra := "C1", id_proveedor := "PR", subtotal := 0, total := 0,
      estado := "PEN", recepciones := 1 }
    (by decide) (by decide)
    (by decide)
  refine ⟨h.1 _ rfl (by decide) (by decide)
    (by decide), ?_⟩
  obtain ⟨e, he, hs⟩ := h.2
  exact ⟨e, he, by simpa using hs⟩

/-- Concrete database for the C5 counterexample: a COMPLETED order with
zero receipts. -/
def dbC5 : ComprasDB :=
  { proveedores := [], productos := [],
    compras := [{ id_compra := "C1", id_proveedor := "PR", subtotal := 0, total := 0,
                  estado := "COM", recepciones := 0 }]
    detalles_compra := [], nuevo_id_compra := "X" }

/-- C5 counterexample: canceling an order whose state is COM (not
PENDING) but that has zero receipts succeeds and sets the state to ANU,
refuting the claim that cancel succeeds only from the PENDING state. -/
theorem anularCompra_completada_exitosa :
    (anularCompra dbC5 "C1").1 = .ok "C1" "ANU" ∧
      (anularCompra dbC5 "C1").2.compras.map Compra.estado = ["ANU"] := by
  refine ⟨by decide, by decide⟩

/-- C5 (amended): the cancel operation on an existing order succeeds
exactly when the order state is not ANU and it has zero receipts (so it
also succeeds from the COM state); when the state is ANU it fails with
the 400 validation answer, when receipts exist it fails with the 409
conflict answer, and in both failure cases the database is unchanged. -/
theorem anularCompra_caracterizacion (db : ComprasDB) (id : String) (c : Compra)
    (hid : (jsTrim id).length ≠ 0)
    (hfound : db.compras.find? (fun x => x.id_compra == jsTrim id) = some c) :
    (c.estado = "ANU" → anularCompra db id = (.error .yaAnulada, db)) ∧
    (c.estado ≠ "ANU" → 0 < c.recepciones →
      anularCompra db id = (.error (.anularConRecepciones c.recepciones), db)) ∧
    (c.estado ≠ "ANU" → c.recepciones = 0 →
      (anularCompra db id).1 = .ok (jsTrim id) "ANU" ∧
      (anularCompra db id).2.compras = db.compras.map (fun x =>
        if x.id_compra == jsTrim id then { x with estado := "ANU" } else x)) := by
  have hid0 : (id == "") = false := by
    apply beq_eq_false_iff_ne.mpr
    intro h
    subst h
    exact hid rfl
  have hidlen : ((jsTrim id).length == 0) = false := beq_eq_false_iff_ne.mpr hid
  refine ⟨?_, ?_, ?_⟩
  · intro hanu
    unfold anularCompra
    rw [hid0, hidlen, hfound]
    simp [hanu]
  · intro hanu hr
    unfold anularCompra
    rw [hid0, hidlen, hfound]
    simp [hanu, hr]
  · intro hanu hr
    unfold anularCompra
    rw [hid0, hidlen, hfound]
    simp [hanu, hr]

/-- Database for the C5 witness: a PEN order with zero receipts. -/
def dbC5w : ComprasDB :=
  { proveedores := [], productos := [],
    compras := [{ id_compra := "C1", id_proveedor := "PR", subtotal := 0, total := 0,
                  estado := "PEN", recepciones := 0 }]
    detalles_compra := [], nuevo_id_compra := "X" }

/-- C5 witness: the characterization applied to a concrete PEN order
with zero receipts, which is canceled successfully. -/
theorem anularCompra_caracterizacion_witness :
    (anularCompra dbC5w "C1").1 = .ok "C1" "ANU" := by
  have h := anularCompra_caracterizacion dbC5w "C1"
    { id_compra := "C1", id_proveedor := "PR", subtotal := 0, total := 0,
      estado := "PEN", recepciones := 0 }
    (by decide) (by decide)
  have h3 := (h.2.2 (by decide) rfl).1
  simpa using h3

/-- If the duplicate scan returns no duplicate, the raw product ids of
the lines are pairwise distinct and avoid the ids already seen. -/
lemma buscarDuplicado_none_nodup :
    ∀ (l : List DetalleCompraReq) (vistos : List String),
      buscarDuplicado vistos l = none →
      (l.map DetalleCompraReq.id_producto).Nodup ∧
        ∀ x ∈ l.map DetalleCompraReq.id_producto, x ∉ vistos := by
  intro l
  induction l with
  | nil => intro vistos _; simp
  | cons d rest ih =>
    intro vistos h
    unfold buscarDuplicado at h
    by_cases hc : vistos.contains d.id_producto
    · have hmem : d.id_producto ∈ vistos := List.mem_of_elem_eq_true hc
      simp [hmem] at h
    · rw [if_neg hc] at h
      obtain ⟨hnodup, havoid⟩ := ih (d.id_producto :: vistos) h
      refine ⟨?_, ?_⟩
      · simp only [List.map_cons, List.nodup_cons]
        exact ⟨fun hmem => (havoid _ hmem) (List.mem_cons_self _ _), hnodup⟩
      · intro x hx
        simp only [List.map_cons, List.mem_cons] at hx
        rcases hx with rfl | hx
        · intro hmem
          exact hc (List.elem_eq_true_of_mem hmem)
        · intro hmem
          exact (havoid x hx) (List.mem_cons_of_mem _ hmem)

/-- C6 (amended): a purchase-order create or update request whose line
list repeats the SAME LITERAL product id fails with the 400 duplicate
validation answer and persists nothing; crearCompra and actualizarCompra
run the same raw-id scan before any other lookup.  The scan compares the
raw ids while the product lookups trim them, so two lines whose ids
differ only by whitespace but reference the same product are NOT caught
by either operation (see the counterexample). -/
theorem compra_duplicados_literales (db : ComprasDB)
    (detalles : List DetalleCompraReq)
    (hdup : ¬ (detalles.map DetalleCompraReq.id_producto).Nodup) :
    (∀ req : CrearCompraRequest, req.id_proveedor ≠ "" → req.detalles = detalles →
      ∃ pid, crearCompra db req = (.error (.duplicado pid), db) ∧
        CompraError.status (.duplicado pid) = 400) ∧
    (∀ req : ActualizarCompraRequest, (jsTrim req.id_compra).length ≠ 0 →
      req.detalles = detalles →
      ∃ pid, actualizarCompra db req = (.error (.duplicado pid), db) ∧
        CompraError.status (.duplicado pid) = 400) := by
  have hne : detalles ≠ [] := by
    intro h
    exact hdup (by simp [h])
  have hlen : (detalles.length == 0) = false := by
    apply beq_eq_false_iff_ne.mpr
    simpa using hne
  have hpid : ∃ pid, validarDetallesSinDuplicados detalles = some pid := by
    match hscan : validarDetallesSinDuplicados detalles with
    | none => exact absurd (buscarDuplicado_none_nodup detalles [] hscan).1 hdup
    | some pid => exact ⟨pid, rfl⟩
  obtain ⟨pid, hscan⟩ := hpid
  constructor
  · intro req hprov hdet
    have hprov' : (req.id_proveedor == "") = false := beq_eq_false_iff_ne.mpr hprov
    refine ⟨pid, ?_, rfl⟩
    unfold crearCompra
    rw [hprov', hdet, hlen, hscan]
    simp
  · intro req hid hdet
    have hid0 : (req.id_compra == "") = false := by
      apply beq_eq_false_iff_ne.mpr
      intro h
      exact hid (by rw [h]; rfl)
    have hidlen : ((jsTrim req.id_compra).length == 0) = false :=
      beq_eq_false_iff_ne.mpr hid
    refine ⟨pid, ?_, rfl⟩
    unfold actualizarCompra
    rw [hid0, hidlen, hdet, hlen, hscan]
    simp

/-- Concrete database for the C6 counterexample: an active supplier, an
active product, and one PEN order with zero receipts (the target of the
update half of the counterexample). -/
def dbC6 : ComprasDB :=
  { proveedores := [{ id_proveedor := "PR", estado := "ACT" }]
    productos :=
      [{ id_producto := "P1", estado := "ACT", saldo_inicial := 0, ingresos := 0,
         egresos := 0, ajustes := 0, saldo_actual := 0 }]
    compras := [{ id_compra := "C0", id_proveedor := "PR", subtotal := 0, total := 0,
                  estado := "PEN", recepciones := 0 }]
    detalles_compra := []
    nuevo_id_compra := "C1" }

/-- Concrete create request for the C6 counterexample: two lines whose
ids differ only by a trailing space, so both reference product P1. -/
def reqC6 : CrearCompraRequest :=
  { id_proveedor := "PR"
    detalles := [{ id_producto := "P1", cantidad := 1, costo_unitario := 2 },
                 { id_producto := "P1 ", cantidad := 1, costo_unitario := 3 }] }

/-- Concrete update request for the C6 counterexample, with the same two
lines aimed at the stored PEN order. -/
def reqC6u : ActualizarCompraRequest :=
  { id_compra := "C0"
    detalles := [{ id_producto := "P1", cantidad := 1, costo_unitario := 2 },
                 { id_producto := "P1 ", cantidad := 1, costo_unitario := 3 }] }

/-- The order header the create half of the C6 counterexample produces. -/
def compraC6 : Compra :=
  { id_compra := "C1", id_proveedor := "PR", subtotal := 5, total := 5,
    estado := "PEN", recepciones := 0 }

/-- The stored line rows the create half of the C6 counterexample
produces: two rows for the same product. -/
def rowsC6 : List DetalleCompra :=
  [{ id_compra := "C1", id_producto := "P1", cantidad := 1, costo_unitario := 2,
     subtotal := 2 },
   { id_compra := "C1", id_producto := "P1", cantidad := 1, costo_unitario := 3,
     subtotal := 3 }]

/-- The order header the update half of the C6 counterexample produces. -/
def compraC6u : Compra :=
  { id_compra := "C0", id_proveedor := "PR", subtotal := 5, total := 5,
    estado := "PEN", recepciones := 0 }

/-- The stored line rows the update half of the C6 counterexample
produces: again two rows for the same product. -/
def rowsC6u : List DetalleCompra :=
  [{ id_compra := "C0", id_producto := "P1", cantidad := 1, costo_unitario := 2,
     subtotal := 2 },
   { id_compra := "C0", id_producto := "P1", cantidad := 1, costo_unitario := 3,
     subtotal := 3 }]

/-- C6 counterexample: two lines referencing the same product (one id
carrying a trailing space) are ACCEPTED by BOTH operations: the create
call persists an order with two line rows for product P1, and the update
call on a PEN order with zero receipts likewise replaces its lines with
two rows for product P1, refuting the claim that every create or update
request with two lines for the same product fails with ValidationError
and persists nothing. -/
theorem compra_duplicado_trim_aceptado :
    jsTrim "P1 " = "P1" ∧
      (crearCompra dbC6 reqC6).1 = .ok compraC6 rowsC6 ∧
      rowsC6.map DetalleCompra.id_producto = ["P1", "P1"] ∧
      (crearCompra dbC6 reqC6).2.detalles_compra = rowsC6 ∧
      (actualizarCompra dbC6 reqC6u).1 = .ok compraC6u rowsC6u ∧
      rowsC6u.map DetalleCompra.id_producto = ["P1", "P1"] ∧
      (actualizarCompra dbC6 reqC6u).2.detalles_compra = rowsC6u := by
  refine ⟨by decide, by decide, by decide, by decide, by decide, by decide, by decide⟩

/-- C6 witness: the amended theorem applied to a concrete create request
and a concrete update request, each with a literal duplicate id. -/
theorem compra_duplicados_literales_witness :
    (∃ pid, crearCompra dbC6
        { id_proveedor := "PR"
          detalles := [{ id_producto := "P1", cantidad := 1, costo_unitario := 2 },
                       { id_producto := "P1", cantidad := 1, costo_unitario := 3 }] }
      = (.error (.duplicado pid), dbC6) ∧
      CompraError.status (.duplicado pid) = 400) ∧
    (∃ pid, actualizarCompra dbC6
        { id_compra := "C0"
          detalles := [{ id_producto := "P1", cantidad := 1, costo_unitario := 2 },
                       { id_producto := "P1", cantidad := 1, costo_unitario := 3 }] }
      = (.error (.duplicado pid), dbC6) ∧
      CompraError.status (.duplicado pid) = 400) := by
  have h := compra_duplicados_literales dbC6
    [{ id_producto := "P1", cantidad := 1, costo_unitario := 2 },
     { id_producto := "P1", cantidad := 1, costo_unitario := 3 }]
    (by decide)
  exact ⟨h.1 _ (by decide) rfl, h.2 _ (by decide) rfl⟩

/-! ### Model of the JS string primitives used by the invoice-id
generation of crearFacturaPOS (src/unnamed/part_004, the factura
controller).  Strings are handled here as lists of characters so that the
lexicographic ordering the database applies to the id column can be
reasoned about directly. -/

/-- Digit test by code point, as parseInt does (code points 48 to 57). -/
def esDigito (c : Char) : Bool :=
  48 ≤ c.toNat && c.toNat ≤ 57

/-- Fuel-driven decimal rendering of a natural number; the recursion is
on the fuel so that concrete instances compute by kernel reduction. -/
def jsDigitsAux : Nat → Nat → List Char
  | 0, _ => []
  | fuel + 1, n =>
    if n < 10 then [Nat.digitChar n]
    else jsDigitsAux fuel (n / 10) ++ [Nat.digitChar (n % 10)]

/-- Model of the JS conversion String(n) for a natural number: its
decimal digits, most significant first, with no leading zeros (except for
the single digit of 0). -/
def jsDigits (n : Nat) : List Char :=
  jsDigitsAux (n + 1) n

/-- Model of the JS String.prototype.padStart(6, "0"). -/
def padStart6 (s : List Char) : List Char :=
  List.replicate (6 - s.length) '0' ++ s

/-- Value accumulated by reading decimal digits left to right, stopping
at the first non-digit, as parseInt does. -/
def valDigits : List Char → Nat → Nat
  | [], acc => acc
  | c :: cs, acc =>
    if esDigito c then valDigits cs (10 * acc + (c.toNat - 48)) else acc

/-- Model of the JS parseInt on a string: none models NaN (no leading
digit); otherwise the value of the maximal digit prefix. -/
def parseIntJS : List Char → Option Nat
  | [] => none
  | c :: cs => if esDigito c then some (valDigits (c :: cs) 0) else none

/-- Lexicographic strict ordering on character lists by code point: the
ordering the database applies to the varchar id column. -/
def lexLtB : List Char → List Char → Bool
  | [], [] => false
  | [], _ :: _ => true
  | _ :: _, [] => false
  | a :: as, b :: bs =>
    if a.toNat < b.toNat then true
    else if b.toNat < a.toNat then false
    else lexLtB as bs

/-- Model of the JS String.prototype.split("-"). -/
def splitOnDash : List Char → List (List Char)
  | [] => [[]]
  | c :: rest =>
    if c = '-' then [] :: splitOnDash rest
    else
      match splitOnDash rest with
      | [] => [[c]]
      | g :: gs => (c :: g) :: gs

/-- The year prefix of the invoice-id lookup: the characters of
"F-" followed by the year followed by "-". -/
def prefijoAnio (anio : Nat) : List Char :=
  'F' :: '-' :: (jsDigits anio ++ ['-'])

/-- An invoice id as built by crearFacturaPOS: the year prefix followed
by the sequence number padded to 6 digits. -/
def facturaId (anio seq : Nat) : List Char :=
  prefijoAnio anio ++ padStart6 (jsDigits seq)

/-- Model of findFirst with orderBy id_factura desc: the lexicographic
maximum of the list, none when the list is empty. -/
def latest? : List (List Char) → Option (List Char)
  | [] => none
  | x :: xs =>
    match latest? xs with
    | none => some x
    | some m => some (if lexLtB m x then x else m)

/-- Embedding of the sequence allocation of crearFacturaPOS (part_004
lines 482 to 499): filter the existing ids by the year prefix, take the
lexicographically last one, split it on the dashes and parse its third
component, then add one; 1 when no id matches.  The getD 0 is never
exercised on well-formed stores (parseInt of a padded decimal never
yields NaN). -/
def numeroSecuencial (ids : List (List Char)) (anio : Nat) : Nat :=
  match latest? (ids.filter (fun s => (prefijoAnio anio).isPrefixOf s)) with
  | none => 1
  | some u => (parseIntJS ((splitOnDash u).getD 2 [])).getD 0 + 1

/-! ### Data model for the POS invoice creation (part_004) -/

/-- A row of the cliente table (the fields the controller reads). -/
structure Cliente where
  id_cliente : Nat
  ruc_cedula : String
deriving Repr, DecidableEq

/-- A row of the iva table. -/
structure Iva where
  id_iva : Nat
  porcentaje : ℚ
deriving Repr, DecidableEq

/-- A row of the producto table as read by this controller variant,
which keeps the balance in a stock field. -/
structure ProductoPos where
  id_producto : String
  descripcion : String
  stock : ℚ
  precio_venta : ℚ
deriving Repr, DecidableEq

/-- A row of the factura table. -/
structure Factura where
  id_factura : List Char
  id_cliente : Nat
  id_canal : String
  id_metodo_pago : Nat
  id_iva : Nat
  subtotal : ℚ
  total : ℚ
  estado : String
deriving Repr, DecidableEq

/-- A row of the detalle_factura table. -/
structure DetalleFactura where
  id_factura : List Char
  id_producto : String
  cantidad : ℚ
  precio_unitario : ℚ
  subtotal : ℚ
  estado : String
deriving Repr, DecidableEq

/-- The database slice touched by the POS invoice creation. -/
structure PosDB where
  clientes : List Cliente
  ivas : List Iva
  productos : List ProductoPos
  facturas : List Factura
  detalles_factura : List DetalleFactura
deriving Repr, DecidableEq

/-- An item of the POS request; a precio_unitario of 0 models a falsy or
absent price, which makes the controller fall back to the catalog
price. -/
structure ItemPos where
  id_producto : String
  cantidad : ℚ
  precio_unitario : ℚ
deriving Repr, DecidableEq

/-- The POS invoice-creation request; the anio field models the ambient
new Date().getFullYear(). -/
structure PosRequest where
  cedula : String
  items : List ItemPos
  id_iva : Nat
  anio : Nat
deriving Repr, DecidableEq

/-- The distinct error return sites of crearFacturaPOS. -/
inductive PosError where
  | clienteNoEncontrado
  | ivaNoEncontrado
  | productoNoEncontrado (id_producto : String)
  | stockInsuficiente (id_producto : String)
deriving Repr, DecidableEq

/-- HTTP status of each error return site of crearFacturaPOS; the 400 of
stockInsuficiente is the InsufficientStockError of the specification
taxonomy. -/
def PosError.status : PosError → Nat
  | .clienteNoEncontrado => 404
  | .ivaNoEncontrado => 404
  | .productoNoEncontrado _ => 404
  | .stockInsuficiente _ => 400

/-- An entry of detallesValidados. -/
structure DetallePos where
  id_producto : String
  cantidad : ℚ
  precio_unitario : ℚ
  subtotal : ℚ
deriving Repr, DecidableEq

/-- The validation loop of crearFacturaPOS (part_004 lines 443 to 475):
for each item in order, the product must exist and its stock must cover
the requested quantity; on success the raw accumulated subtotal and the
validated lines are produced. -/
def validarItemsPOS (productos : List ProductoPos) :
    List ItemPos → Except PosError (ℚ × List DetallePos)
  | [] => .ok (0, [])
  | it :: rest =>
    match productos.find? (fun p => p.id_producto == it.id_producto) with
    | none => .error (.productoNoEncontrado it.id_producto)
    | some p =>
      if p.stock < it.cantidad then .error (.stockInsuficiente it.id_producto)
      else
        let precio := if it.precio_unitario == 0 then p.precio_venta else it.precio_unitario
        let itemSubtotal := precio * it.cantidad
        match validarItemsPOS productos rest with
        | .error e => .error e
        | .ok (s, ds) =>
          .ok (itemSubtotal + s,
               { id_producto := it.id_producto, cantidad := it.cantidad,
                 precio_unitario := round3 precio,
                 subtotal := round3 itemSubtotal } :: ds)

/-- Result of crearFacturaPOS. -/
inductive PosResultado where
  | error (e : PosError)
  | ok (factura : Factura)
deriving Repr, DecidableEq

/-- Embedding of crearFacturaPOS (part_004 lines 411 to 560): look up the
client by trimmed cedula and the iva row, validate the items, compute
valorIva and total with 3-decimal rounding, allocate the next invoice id
for the current year, then atomically create the invoice, its line rows,
and decrement each product stock.  Every error path returns before any
write. -/
def crearFacturaPOS (db : PosDB) (req : PosRequest) : PosResultado × PosDB :=
  match db.clientes.find? (fun c => c.ruc_cedula == jsTrim req.cedula) with
  | none => (.error .clienteNoEncontrado, db)
  | some cliente =>
    match db.ivas.find? (fun i => i.id_iva == req.id_iva) with
    | none => (.error .ivaNoEncontrado, db)
    | some iva =>
      match validarItemsPOS db.productos req.items with
      | .error e => (.error e, db)
      | .ok (subtotal, dets) =>
        let valorIva := round3 (subtotal * iva.porcentaje / 100)
        let total := round3 (subtotal + valorIva)
        let nuevoId :=
          facturaId req.anio (numeroSecuencial (db.facturas.map Factura.id_factura) req.anio)
        let factura : Factura :=
          { id_factura := nuevoId, id_cliente := cliente.id_cliente, id_canal := "POS",
            id_metodo_pago := 1, id_iva := req.id_iva,
            subtotal := round3 subtotal, total := total, estado := "EMI" }
        (.ok factura,
         { db with
           facturas := db.facturas ++ [factura]
           detalles_factura := db.detalles_factura ++ dets.map (fun d =>
             { id_factura := nuevoId, id_producto := d.id_producto,
               cantidad := d.cantidad, precio_unitario := d.precio_unitario,
               subtotal := d.subtotal, estado := "ACT" })
           productos := dets.foldl (fun ps d =>
             ps.map (fun p =>
               if p.id_producto == d.id_producto then
                 { p with stock := p.stock - d.cantidad }
               else p)) db.productos })

/-! ### Lemmas on the invoice-id string machinery -/

lemma esDigito_digitChar {d : Nat} (h : d < 10) : esDigito (Nat.digitChar d) = true := by
  interval_cases d <;> decide

lemma toNat_digitChar {d : Nat} (h : d < 10) : (Nat.digitChar d).toNat = 48 + d := by
  interval_cases d <;> decide

lemma digitChar_ne_dash {d : Nat} (h : d < 10) : Nat.digitChar d ≠ '-' := by
  interval_cases d <;> decide

lemma esDigito_ne_dash {c : Char} (h : esDigito c = true) : c ≠ '-' := by
  intro hc
  subst hc
  simp [esDigito] at h

lemma jsDigitsAux_fuel_irrel :
    ∀ f g n, n < f → n < g → jsDigitsAux f n = jsDigitsAux g n := by
  intro f
  induction f with
  | zero => intro g n h _; exact absurd h (Nat.not_lt_zero n)
  | succ f ih =>
    intro g n hf hg
    cases g with
    | zero => exact absurd hg (Nat.not_lt_zero n)
    | succ g =>
      by_cases h10 : n < 10
      · simp [jsDigitsAux, h10]
      · have hpos : 0 < n := by omega
        have hdiv : n / 10 < n := Nat.div_lt_self hpos (by omega)
        simp only [jsDigitsAux, h10, if_false]
        rw [ih g (n / 10) (by omega) (by omega)]

/-- One-step unfolding of jsDigits in terms of itself. -/
lemma jsDigits_eq (n : Nat) :
    jsDigits n = if n < 10 then [Nat.digitChar n]
      else jsDigits (n / 10) ++ [Nat.digitChar (n % 10)] := by
  have h : jsDigitsAux (n + 1) n
      = if n < 10 then [Nat.digitChar n]
        else jsDigitsAux n (n / 10) ++ [Nat.digitChar (n % 10)] := by
    conv_lhs => rw [jsDigitsAux]
  rw [jsDigits, h]
  by_cases h10 : n < 10
  · rw [if_pos h10, if_pos h10]
  · have hdiv : n / 10 < n := Nat.div_lt_self (by omega) (by omega)
    rw [if_neg h10, if_neg h10, jsDigits,
      jsDigitsAux_fuel_irrel n (n / 10 + 1) (n / 10) (by omega) (by omega)]

lemma jsDigits_ne_nil (n : Nat) : jsDigits n ≠ [] := by
  rw [jsDigits_eq]
  by_cases h10 : n < 10 <;> simp [h10]

lemma jsDigits_digits (n : Nat) : ∀ c ∈ jsDigits n, esDigito c = true := by
  induction n using Nat.strong_induction_on with
  | _ n ih =>
    rw [jsDigits_eq]
    by_cases h10 : n < 10
    · simp only [h10, if_true, List.mem_singleton]
      rintro c rfl
      exact esDigito_digitChar h10
    · have hpos : 0 < n := by omega
      have hdiv : n / 10 < n := Nat.div_lt_self hpos (by omega)
      simp only [h10, if_false, List.mem_append, List.mem_singleton]
      rintro c (hc | rfl)
      · exact ih (n / 10) hdiv c hc
      · exact esDigito_digitChar (Nat.mod_lt n (by omega))

lemma jsDigits_no_dash (n : Nat) : '-' ∉ jsDigits n := by
  intro h
  exact esDigito_ne_dash (jsDigits_digits n '-' h) rfl

lemma valDigits_append (xs ys : List Char) (h : ∀ c ∈ xs, esDigito c = true) :
    ∀ acc, valDigits (xs ++ ys) acc = valDigits ys (valDigits xs acc) := by
  induction xs with
  | nil => intro acc; rfl
  | cons c cs ih =>
    intro acc
    have hc : esDigito c = true := h c (List.mem_cons_self c cs)
    simp only [List.cons_append, valDigits, hc, if_true]
    exact ih (fun d hd => h d (List.mem_cons_of_mem c hd)) _

lemma jsDigits_val (n : Nat) :
    ∀ acc, valDigits (jsDigits n) acc = acc * 10 ^ (jsDigits n).length + n := by
  induction n using Nat.strong_induction_on with
  | _ n ih =>
    intro acc
    by_cases h10 : n < 10
    · rw [jsDigits_eq, if_pos h10]
      simp only [valDigits, esDigito_digitChar h10, if_true, toNat_digitChar h10,
        List.length_singleton, pow_one]
      omega
    · have hdiv : n / 10 < n := Nat.div_lt_self (by omega) (by omega)
      have hmod : n % 10 < 10 := Nat.mod_lt n (by omega)
      rw [jsDigits_eq, if_neg h10,
        valDigits_append _ _ (jsDigits_digits (n / 10))]
      simp only [valDigits, esDigito_digitChar hmod, if_true, toNat_digitChar hmod,
        List.length_append, List.length_singleton]
      rw [ih (n / 10) hdiv acc, pow_succ, Nat.add_sub_cancel_left]
      generalize 10 ^ (jsDigits (n / 10)).length = X
      have hdm := Nat.div_add_mod n 10
      have hre : acc * (X * 10) = 10 * (acc * X) := by ring
      rw [hre]
      generalize acc * X = A
      omega

lemma jsDigits_val0 (n : Nat) : valDigits (jsDigits n) 0 = n := by
  rw [jsDigits_val]
  omega

lemma jsDigits_len_le : ∀ n k : Nat, 1 ≤ k → n < 10 ^ k → (jsDigits n).length ≤ k := by
  intro n
  induction n using Nat.strong_induction_on with
  | _ n ih =>
    intro k hk hlt
    by_cases h10 : n < 10
    · rw [jsDigits_eq, if_pos h10]
      simpa using hk
    · rw [jsDigits_eq, if_neg h10]
      have hpos : 0 < n := by omega
      have hdiv : n / 10 < n := Nat.div_lt_self hpos (by omega)
      have hk2 : 2 ≤ k := by
        by_contra hcon
        have : k = 1 := by omega
        subst this
        simp at hlt
        omega
      have hdivlt : n / 10 < 10 ^ (k - 1) := by
        rw [Nat.div_lt_iff_lt_mul (by omega)]
        calc n < 10 ^ k := hlt
        _ = 10 ^ (k - 1) * 10 := by
              rw [← pow_succ]
              congr 1
              omega
      have := ih (n / 10) hdiv (k - 1) (by omega) hdivlt
      simp only [List.length_append, List.length_singleton]
      omega

lemma esDigito_val_lt {c : Char} (h : esDigito c = true) : c.toNat - 48 < 10 := by
  simp only [esDigito, Bool.and_eq_true, decide_eq_true_eq] at h
  omega

lemma valDigits_bounds (xs : List Char) (h : ∀ c ∈ xs, esDigito c = true) :
    ∀ acc, acc * 10 ^ xs.length ≤ valDigits xs acc ∧
      valDigits xs acc < (acc + 1) * 10 ^ xs.length := by
  induction xs with
  | nil => intro acc; simp [valDigits]
  | cons c cs ih =>
    intro acc
    have hc : esDigito c = true := h c (List.mem_cons_self c cs)
    have hd : c.toNat - 48 < 10 := esDigito_val_lt hc
    simp only [valDigits, hc, if_true, List.length_cons]
    obtain ⟨hlo, hhi⟩ := ih (fun d hd => h d (List.mem_cons_of_mem c hd))
      (10 * acc + (c.toNat - 48))
    constructor
    · calc acc * 10 ^ (cs.length + 1) = (10 * acc) * 10 ^ cs.length := by ring
      _ ≤ (10 * acc + (c.toNat - 48)) * 10 ^ cs.length :=
        Nat.mul_le_mul_right _ (by omega)
      _ ≤ _ := hlo
    · calc valDigits cs (10 * acc + (c.toNat - 48))
          < (10 * acc + (c.toNat - 48) + 1) * 10 ^ cs.length := hhi
      _ ≤ ((acc + 1) * 10) * 10 ^ cs.length := Nat.mul_le_mul_right _ (by omega)
      _ = (acc + 1) * 10 ^ (cs.length + 1) := by ring

lemma valDigits_replicate_zero (k : Nat) :
    ∀ acc, valDigits (List.replicate k '0') acc = acc * 10 ^ k := by
  induction k with
  | zero => intro acc; simp [valDigits]
  | succ k ih =>
    intro acc
    have h0 : esDigito '0' = true := by decide
    simp only [List.replicate_succ, valDigits, h0, if_true]
    rw [ih]
    have : ('0' : Char).toNat - 48 = 0 := by decide
    rw [this, pow_succ]
    ring

lemma padStart6_digits (xs : List Char) (h : ∀ c ∈ xs, esDigito c = true) :
    ∀ c ∈ padStart6 xs, esDigito c = true := by
  intro c hc
  simp only [padStart6, List.mem_append, List.mem_replicate] at hc
  rcases hc with ⟨_, rfl⟩ | hc
  · decide
  · exact h c hc

lemma padStart6_val (xs : List Char) (_h : ∀ c ∈ xs, esDigito c = true) :
    valDigits (padStart6 xs) 0 = valDigits xs 0 := by
  unfold padStart6
  rw [valDigits_append _ _ (fun c hc => by
    rw [List.mem_replicate] at hc
    rcases hc with ⟨_, rfl⟩
    decide)]
  rw [valDigits_replicate_zero]
  simp

lemma padStart6_length (xs : List Char) (h : xs.length ≤ 6) :
    (padStart6 xs).length = 6 := by
  simp only [padStart6, List.length_append, List.length_replicate]
  omega

lemma padStart6_no_dash (n : Nat) : '-' ∉ padStart6 (jsDigits n) := by
  intro h
  exact esDigito_ne_dash
    (padStart6_digits (jsDigits n) (jsDigits_digits n) '-' h) rfl

lemma lexLtB_digits :
    ∀ (xs ys : List Char), (∀ c ∈ xs, esDigito c = true) →
      (∀ c ∈ ys, esDigito c = true) → xs.length = ys.length →
      ∀ acc, lexLtB xs ys = decide (valDigits xs acc < valDigits ys acc) := by
  intro xs
  induction xs with
  | nil =>
    intro ys _ _ hlen acc
    cases ys with
    | nil => simp [lexLtB, valDigits]
    | cons b bs => simp at hlen
  | cons a as ih =>
    intro ys hx hy hlen acc
    cases ys with
    | nil => simp at hlen
    | cons b bs =>
      have ha : esDigito a = true := hx a (List.mem_cons_self a as)
      have hb : esDigito b = true := hy b (List.mem_cons_self b bs)
      have hda : a.toNat - 48 < 10 := esDigito_val_lt ha
      have hdb : b.toNat - 48 < 10 := esDigito_val_lt hb
      have ha48 : 48 ≤ a.toNat := by
        simp only [esDigito, Bool.and_eq_true, decide_eq_true_eq] at ha
        exact ha.1
      have hb48 : 48 ≤ b.toNat := by
        simp only [esDigito, Bool.and_eq_true, decide_eq_true_eq] at hb
        exact hb.1
      have has : ∀ c ∈ as, esDigito c = true :=
        fun c hc => hx c (List.mem_cons_of_mem a hc)
      have hbs : ∀ c ∈ bs, esDigito c = true :=
        fun c hc => hy c (List.mem_cons_of_mem b hc)
      have hlen' : as.length = bs.length := by simpa using hlen
      simp only [lexLtB, valDigits, ha, hb, if_true]
      by_cases hab : a.toNat < b.toNat
      · obtain ⟨_, hhi⟩ := valDigits_bounds as has (10 * acc + (a.toNat - 48))
        obtain ⟨hlo, _⟩ := valDigits_bounds bs hbs (10 * acc + (b.toNat - 48))
        have hstep : (10 * acc + (a.toNat - 48) + 1) * 10 ^ as.length
            ≤ (10 * acc + (b.toNat - 48)) * 10 ^ as.length :=
          Nat.mul_le_mul_right _ (by omega)
        rw [hlen'] at hstep hhi
        simp only [hab, if_true, true_eq_decide_iff]
        omega
      · by_cases hba : b.toNat < a.toNat
        · obtain ⟨_, hhi⟩ := valDigits_bounds bs hbs (10 * acc + (b.toNat - 48))
          obtain ⟨hlo, _⟩ := valDigits_bounds as has (10 * acc + (a.toNat - 48))
          have hstep : (10 * acc + (b.toNat - 48) + 1) * 10 ^ bs.length
              ≤ (10 * acc + (a.toNat - 48)) * 10 ^ bs.length :=
            Nat.mul_le_mul_right _ (by omega)
          rw [hlen'] at hlo
          simp only [hab, hba, if_true, if_false, false_eq_decide_iff]
          omega
        · have heq : a.toNat - 48 = b.toNat - 48 := by omega
          simp only [hab, hba, if_false]
          rw [heq]
          exact ih bs has hbs hlen' _

lemma lexLtB_append_left :
    ∀ (p u v : List Char), lexLtB (p ++ u) (p ++ v) = lexLtB u v := by
  intro p
  induction p with
  | nil => intro u v; rfl
  | cons c cs ih =>
    intro u v
    simp only [List.cons_append, lexLtB, lt_irrefl, if_false]
    exact ih u v

lemma lexLtB_facturaId (y s t : Nat) (hs : s ≤ 999999) (ht : t ≤ 999999) :
    lexLtB (facturaId y s) (facturaId y t) = decide (s < t) := by
  unfold facturaId
  rw [lexLtB_append_left]
  have hls : (jsDigits s).length ≤ 6 := jsDigits_len_le s 6 (by omega) (by omega)
  have hlt : (jsDigits t).length ≤ 6 := jsDigits_len_le t 6 (by omega) (by omega)
  rw [lexLtB_digits _ _ (padStart6_digits _ (jsDigits_digits s))
    (padStart6_digits _ (jsDigits_digits t))
    (by rw [padStart6_length _ hls, padStart6_length _ hlt]) 0]
  rw [padStart6_val _ (jsDigits_digits s), padStart6_val _ (jsDigits_digits t),
    jsDigits_val0, jsDigits_val0]

lemma isPrefixOf_append_self :
    ∀ (p t : List Char), p.isPrefixOf (p ++ t) = true := by
  intro p
  induction p with
  | nil => intro t; simp [List.isPrefixOf]
  | cons c cs ih =>
    intro t
    simp only [List.cons_append, List.isPrefixOf_cons₂, beq_self_eq_true,
      Bool.true_and]
    exact ih t

lemma append_dash_cancel :
    ∀ (a b u v : List Char), '-' ∉ a → '-' ∉ b →
      (a ++ '-' :: u).isPrefixOf (b ++ '-' :: v) = true → a = b := by
  intro a
  induction a with
  | nil =>
    intro b u v _ hb h
    cases b with
    | nil => rfl
    | cons c bs =>
      simp only [List.nil_append, List.cons_append, List.isPrefixOf_cons₂,
        Bool.and_eq_true, beq_iff_eq] at h
      exact absurd (h.1 ▸ List.mem_cons_self c bs) (h.1 ▸ hb)
  | cons c as ih =>
    intro b u v ha hb h
    cases b with
    | nil =>
      simp only [List.cons_append, List.nil_append, List.isPrefixOf_cons₂,
        Bool.and_eq_true, beq_iff_eq] at h
      exact absurd (h.1 ▸ List.mem_cons_self c as) (h.1 ▸ ha)
    | cons d bs =>
      simp only [List.cons_append, List.isPrefixOf_cons₂, Bool.and_eq_true,
        beq_iff_eq] at h
      obtain ⟨rfl, hrest⟩ := h
      have : as = bs := ih bs u v
        (fun hm => ha (List.mem_cons_of_mem c hm))
        (fun hm => hb (List.mem_cons_of_mem c hm)) hrest
      rw [this]

lemma prefijo_facturaId_iff (y y' s : Nat) :
    (prefijoAnio y).isPrefixOf (facturaId y' s) = true ↔ y = y' := by
  constructor
  · intro h
    unfold prefijoAnio facturaId prefijoAnio at h
    simp only [List.cons_append, List.isPrefixOf_cons₂, beq_self_eq_true,
      Bool.true_and, List.append_assoc, List.singleton_append] at h
    have := append_dash_cancel (jsDigits y) (jsDigits y') []
      (padStart6 (jsDigits s)) (jsDigits_no_dash y) (jsDigits_no_dash y') h
    have hval := congrArg (fun l => valDigits l 0) this
    simpa [jsDigits_val0] using hval
  · rintro rfl
    unfold facturaId
    exact isPrefixOf_append_self _ _

lemma splitOnDash_no_dash :
    ∀ (xs : List Char), '-' ∉ xs → splitOnDash xs = [xs] := by
  intro xs
  induction xs with
  | nil => intro _; rfl
  | cons c cs ih =>
    intro h
    have hc : ¬ c = '-' := fun hc => h (hc ▸ List.mem_cons_self c cs)
    simp only [splitOnDash, hc, if_false]
    rw [ih (fun hm => h (List.mem_cons_of_mem c hm))]

lemma splitOnDash_append :
    ∀ (xs ys : List Char), '-' ∉ xs →
      splitOnDash (xs ++ '-' :: ys) = xs :: splitOnDash ys := by
  intro xs
  induction xs with
  | nil => intro ys _; simp [splitOnDash]
  | cons c cs ih =>
    intro ys h
    have hc : ¬ c = '-' := fun hc => h (hc ▸ List.mem_cons_self c cs)
    simp only [List.cons_append, splitOnDash, hc, if_false, List.append_eq]
    rw [ih ys (fun hm => h (List.mem_cons_of_mem c hm))]

lemma splitOnDash_facturaId (y s : Nat) :
    splitOnDash (facturaId y s) = [['F'], jsDigits y, padStart6 (jsDigits s)] := by
  unfold facturaId prefijoAnio
  simp only [List.cons_append, List.append_assoc, List.singleton_append]
  have h1 : ('F' : Char) ≠ '-' := by decide
  simp only [splitOnDash, h1, if_false, if_true, List.append_eq, List.nil_append]
  rw [splitOnDash_append _ _ (jsDigits_no_dash y),
    splitOnDash_no_dash _ (padStart6_no_dash s)]

lemma parseIntJS_digits (xs : List Char) (hne : xs ≠ [])
    (h : ∀ c ∈ xs, esDigito c = true) :
    parseIntJS xs = some (valDigits xs 0) := by
  cases xs with
  | nil => exact absurd rfl hne
  | cons c cs =>
    simp [parseIntJS, h c (List.mem_cons_self c cs)]

lemma parseIntJS_pad (m : Nat) :
    parseIntJS (padStart6 (jsDigits m)) = some m := by
  rw [parseIntJS_digits _ ?hne (padStart6_digits _ (jsDigits_digits m))]
  · rw [padStart6_val _ (jsDigits_digits m), jsDigits_val0]
  case hne =>
    simp only [padStart6, ne_eq, List.append_eq_nil]
    rintro ⟨-, h⟩
    exact jsDigits_ne_nil m h

/-- Specification-side maximum of a list of naturals (none when empty),
mirroring the recursion of latest?. -/
def maxNat? : List Nat → Option Nat
  | [] => none
  | x :: xs =>
    match maxNat? xs with
    | none => some x
    | some m => some (if m < x then x else m)

lemma maxNat?_eq_none_iff : ∀ (l : List Nat), maxNat? l = none ↔ l = [] := by
  intro l
  cases l with
  | nil => simp [maxNat?]
  | cons x xs =>
    simp only [maxNat?]
    cases maxNat? xs <;> simp

lemma maxNat?_mem : ∀ (l : List Nat) (m : Nat), maxNat? l = some m → m ∈ l := by
  intro l
  induction l with
  | nil => intro m h; simp [maxNat?] at h
  | cons x xs ih =>
    intro m h
    simp only [maxNat?] at h
    cases hm : maxNat? xs with
    | none => rw [hm] at h; simp at h; simp [h]
    | some m0 =>
      rw [hm] at h
      simp only [Option.some.injEq] at h
      by_cases hlt : m0 < x
      · rw [if_pos hlt] at h
        simp [← h]
      · rw [if_neg hlt] at h
        exact List.mem_cons_of_mem x (h ▸ ih m0 hm)

lemma maxNat?_foldr : ∀ (l : List Nat), l ≠ [] → maxNat? l = some (l.foldr max 0) := by
  intro l
  induction l with
  | nil => intro h; exact absurd rfl h
  | cons x xs ih =>
    intro _
    simp only [maxNat?, List.foldr_cons]
    cases hxs : xs with
    | nil => simp [maxNat?]
    | cons y ys =>
      rw [← hxs, ih (by simp [hxs])]
      show some (if xs.foldr max 0 < x then x else xs.foldr max 0)
          = some (max x (xs.foldr max 0))
      have : (if xs.foldr max 0 < x then x else xs.foldr max 0) = max x (xs.foldr max 0) := by
        rw [Nat.max_def]
        by_cases h : xs.foldr max 0 < x
        · rw [if_pos h, if_neg (by omega)]
        · rw [if_neg h, if_pos (by omega)]
      rw [this]

lemma le_foldr_max : ∀ (l : List Nat), ∀ x ∈ l, x ≤ l.foldr max 0 := by
  intro l
  induction l with
  | nil => intro x hx; simp at hx
  | cons y ys ih =>
    intro x hx
    rcases List.mem_cons.mp hx with rfl | hx
    · simp [List.foldr_cons, Nat.le_max_left]
    · calc x ≤ ys.foldr max 0 := ih x hx
      _ ≤ max y (ys.foldr max 0) := Nat.le_max_right _ _

lemma latest?_map_facturaId (y : Nat) :
    ∀ (seqs : List Nat), (∀ s ∈ seqs, s ≤ 999999) →
      latest? (seqs.map (facturaId y)) = (maxNat? seqs).map (facturaId y) := by
  intro seqs
  induction seqs with
  | nil => intro _; rfl
  | cons x xs ih =>
    intro h
    rw [List.map_cons]
    simp only [latest?, maxNat?]
    rw [ih (fun s hs => h s (List.mem_cons_of_mem x hs))]
    cases hm : maxNat? xs with
    | none => rfl
    | some m =>
      have hmle : m ≤ 999999 := h m (List.mem_cons_of_mem x (maxNat?_mem xs m hm))
      have hxle : x ≤ 999999 := h x (List.mem_cons_self x xs)
      simp only [Option.map_some']
      rw [lexLtB_facturaId y m x hmle hxle]
      by_cases hlt : m < x
      · simp [hlt]
      · simp [hlt]

lemma filter_prefijo_map (anio : Nat) :
    ∀ (entries : List (Nat × Nat)),
      (entries.map (fun e => facturaId e.1 e.2)).filter
          (fun s => (prefijoAnio anio).isPrefixOf s)
        = ((entries.filter (fun e => e.1 == anio)).map Prod.snd).map (facturaId anio) := by
  intro entries
  induction entries with
  | nil => rfl
  | cons e rest ih =>
    simp only [List.map_cons, List.filter_cons]
    by_cases hy : e.1 = anio
    · have htrue : (prefijoAnio anio).isPrefixOf (facturaId e.1 e.2) = true :=
        (prefijo_facturaId_iff anio e.1 e.2).mpr hy.symm
      have hbeq : (e.1 == anio) = true := beq_iff_eq.mpr hy
      rw [htrue, hbeq]
      simp only [if_true, List.map_cons]
      rw [ih, hy]
    · have hfalse : (prefijoAnio anio).isPrefixOf (facturaId e.1 e.2) = false := by
        rw [Bool.eq_false_iff]
        intro hcon
        exact hy ((prefijo_facturaId_iff anio e.1 e.2).mp hcon).symm
      have hbeq : (e.1 == anio) = false := beq_eq_false_iff_ne.mpr hy
      rw [hfalse, hbeq]
      simp only [Bool.false_eq_true, if_false]
      exact ih

/-- The largest sequence number among the stored invoices of a given
year, 0 when the year has none. -/
def maxSeqAnio (entries : List (Nat × Nat)) (anio : Nat) : Nat :=
  ((entries.filter (fun e => e.1 == anio)).map Prod.snd).foldr max 0

lemma facturaId_inj_seq (y a b : Nat) (h : facturaId y a = facturaId y b) : a = b := by
  unfold facturaId at h
  have hpad : padStart6 (jsDigits a) = padStart6 (jsDigits b) :=
    List.append_cancel_left h
  have hval := congrArg (fun l => valDigits l 0) hpad
  simpa [padStart6_val _ (jsDigits_digits a), padStart6_val _ (jsDigits_digits b),
    jsDigits_val0] using hval

/-- C7: with all stored invoices generated by the id scheme (year, then
6-padded sequence at most 999999), the allocation of crearFacturaPOS
computes exactly the maximum stored sequence of the requested year plus
one (1 when the year has none, so the sequence of year Y+1 restarts
independently of year Y, which the third conjunct spells out), and the
resulting id is distinct from every stored id. -/
theorem facturaPOS_secuencia (entries : List (Nat × Nat)) (anio : Nat)
    (hwf : ∀ e ∈ entries, e.2 ≤ 999999) :
    numeroSecuencial (entries.map (fun e => facturaId e.1 e.2)) anio
        = maxSeqAnio entries anio + 1 ∧
      facturaId anio (numeroSecuencial (entries.map (fun e => facturaId e.1 e.2)) anio)
        ∉ entries.map (fun e => facturaId e.1 e.2) ∧
      ((∀ e ∈ entries, e.1 ≠ anio) →
        numeroSecuencial (entries.map (fun e => facturaId e.1 e.2)) anio = 1) := by
  have hseqs : ∀ s ∈ (entries.filter (fun e => e.1 == anio)).map Prod.snd, s ≤ 999999 := by
    intro s hs
    obtain ⟨e, he, rfl⟩ := List.mem_map.mp hs
    exact hwf e (List.mem_of_mem_filter he)
  have hnum : numeroSecuencial (entries.map (fun e => facturaId e.1 e.2)) anio
      = maxSeqAnio entries anio + 1 := by
    unfold numeroSecuencial
    rw [filter_prefijo_map anio entries, latest?_map_facturaId anio _ hseqs]
    cases hm : maxNat? ((entries.filter (fun e => e.1 == anio)).map Prod.snd) with
    | none =>
      have : (entries.filter (fun e => e.1 == anio)).map Prod.snd = [] :=
        (maxNat?_eq_none_iff _).mp hm
      simp only [Option.map_none']
      unfold maxSeqAnio
      rw [this]
      rfl
    | some m =>
      have hne : (entries.filter (fun e => e.1 == anio)).map Prod.snd ≠ [] := by
        intro hcon
        rw [hcon] at hm
        simp [maxNat?] at hm
      have := maxNat?_foldr _ hne
      rw [this] at hm
      simp only [Option.some.injEq] at hm
      simp only [Option.map_some']
      rw [splitOnDash_facturaId anio m]
      rw [show ([['F'], jsDigits anio, padStart6 (jsDigits m)].getD 2 [])
        = padStart6 (jsDigits m) from rfl]
      rw [parseIntJS_pad]
      unfold maxSeqAnio
      rw [← hm]
      rfl
  refine ⟨hnum, ?_, ?_⟩
  · intro hmem
    rw [hnum] at hmem
    obtain ⟨e, he, heq⟩ := List.mem_map.mp hmem
    have hpref : (prefijoAnio anio).isPrefixOf
        (facturaId anio (maxSeqAnio entries anio + 1)) = true :=
      (prefijo_facturaId_iff anio anio _).mpr rfl
    rw [← heq] at hpref
    have hy : anio = e.1 := (prefijo_facturaId_iff anio e.1 e.2).mp hpref
    rw [← hy] at heq
    have hseq := facturaId_inj_seq anio e.2 (maxSeqAnio entries anio + 1) heq
    have hmemseq : e.2 ∈ (entries.filter (fun x => x.1 == anio)).map Prod.snd := by
      apply List.mem_map_of_mem
      rw [List.mem_filter]
      exact ⟨he, beq_iff_eq.mpr hy.symm⟩
    have hle : e.2 ≤ maxSeqAnio entries anio := le_foldr_max _ _ hmemseq
    rw [hseq] at hle
    omega
  · intro hnone
    have : entries.filter (fun e => e.1 == anio) = [] := by
      apply List.filter_eq_nil_iff.mpr
      intro e he
      simpa using hnone e he
    rw [hnum]
    unfold maxSeqAnio
    rw [this]
    rfl

/-- C7 witness: the sequence theorem applied to a concrete store holding
invoices F-2025-000001, F-2025-000007 and F-2024-000009: the next
sequence for 2025 is 8, the produced id is fresh, and year 2026 restarts
at 1. -/
theorem facturaPOS_secuencia_witness :
    numeroSecuencial ([(2025, 1), (2025, 7), (2024, 9)].map
        (fun e => facturaId e.1 e.2)) 2025 = 8 ∧
      facturaId 2025 8 ∉ [(2025, 1), (2025, 7), (2024, 9)].map
        (fun e => facturaId e.1 e.2) ∧
      numeroSecuencial ([(2025, 1), (2025, 7), (2024, 9)].map
        (fun e => facturaId e.1 e.2)) 2026 = 1 := by
  have h25 := facturaPOS_secuencia [(2025, 1), (2025, 7), (2024, 9)] 2025
    (by decide)
  have h26 := facturaPOS_secuencia [(2025, 1), (2025, 7), (2024, 9)] 2026
    (by decide)
  refine ⟨?_, ?_, ?_⟩
  · rw [h25.1]; decide
  · have := h25.2.1
    rwa [h25.1, show maxSeqAnio [(2025, 1), (2025, 7), (2024, 9)] 2025 + 1 = 8 from by decide]
      at this
  · exact h26.2.2 (by decide)

/-- If every item references an existing product and some item requests
more than the available stock, the validation loop of crearFacturaPOS
stops with the insufficient-stock error (at the first such item). -/
lemma validarItemsPOS_insuficiente (productos : List ProductoPos) :
    ∀ (items : List ItemPos),
      (∀ it ∈ items,
        (productos.find? (fun p => p.id_producto == it.id_producto)).isSome) →
      (∃ it ∈ items, ∃ p,
        productos.find? (fun p2 => p2.id_producto == it.id_producto) = some p ∧
          p.stock < it.cantidad) →
      ∃ pid, validarItemsPOS productos items = .error (.stockInsuficiente pid) := by
  intro items
  induction items with
  | nil =>
    rintro _ ⟨it, hmem, -⟩
    simp at hmem
  | cons it0 rest ih =>
    intro hall hex
    obtain ⟨p0, hp0⟩ := Option.isSome_iff_exists.mp
      (hall it0 (List.mem_cons_self it0 rest))
    by_cases hstock : p0.stock < it0.cantidad
    · refine ⟨it0.id_producto, ?_⟩
      simp only [validarItemsPOS]
      rw [hp0]
      simp [hstock]
    · obtain ⟨it, hmem, p, hp, hlt⟩ := hex
      rcases List.mem_cons.mp hmem with rfl | hmem'
      · rw [hp0] at hp
        injection hp with hpp
        exact absurd (hpp ▸ hlt) hstock
      · obtain ⟨pid, hpid⟩ := ih
          (fun x hx => hall x (List.mem_cons_of_mem it0 hx))
          ⟨it, hmem', p, hp, hlt⟩
        refine ⟨pid, ?_⟩
        simp only [validarItemsPOS]
        rw [hp0]
        simp [hstock, hpid]

/-- C8: for every POS invoice-creation request whose client, tax row and
products all resolve, if some item requests more than the available
stock, the operation fails with the insufficient-stock 400 answer and
the database is returned unchanged: no invoice row, no line rows and no
stock decrement are persisted. -/
theorem crearFacturaPOS_stock_insuficiente (db : PosDB) (req : PosRequest)
    (hcli : (db.clientes.find? (fun c => c.ruc_cedula == jsTrim req.cedula)).isSome)
    (hiva : (db.ivas.find? (fun i => i.id_iva == req.id_iva)).isSome)
    (hall : ∀ it ∈ req.items,
      (db.productos.find? (fun p => p.id_producto == it.id_producto)).isSome)
    (hins : ∃ it ∈ req.items, ∃ p,
      db.productos.find? (fun p2 => p2.id_producto == it.id_producto) = some p ∧
        p.stock < it.cantidad) :
    ∃ pid, crearFacturaPOS db req = (.error (.stockInsuficiente pid), db) ∧
      PosError.status (.stockInsuficiente pid) = 400 := by
  obtain ⟨c, hc⟩ := Option.isSome_iff_exists.mp hcli
  obtain ⟨i, hi⟩ := Option.isSome_iff_exists.mp hiva
  obtain ⟨pid, hval⟩ := validarItemsPOS_insuficiente db.productos req.items hall hins
  refine ⟨pid, ?_, rfl⟩
  unfold crearFacturaPOS
  rw [hc, hi, hval]

/-- Concrete database for the C8 witness (Scenario D): one client, the
12 percent tax row, one product with current stock 1. -/
def dbC8 : PosDB :=
  { clientes := [{ id_cliente := 1, ruc_cedula := "0900000000" }]
    ivas := [{ id_iva := 1, porcentaje := 12 }]
    productos := [{ id_producto := "P1", descripcion := "Vino", stock := 1,
                    precio_venta := 10 }]
    facturas := []
    detalles_factura := [] }

/-- Concrete request for the C8 witness: 2 units of the product whose
stock is 1. -/
def reqC8 : PosRequest :=
  { cedula := "0900000000"
    items := [{ id_producto := "P1", cantidad := 2, precio_unitario := 0 }]
    id_iva := 1
    anio := 2025 }

/-- C8 witness: Scenario D, invoice creation for 2 units of a product
with current balance 1 fails with the insufficient-stock answer and
creates no invoice row. -/
theorem crearFacturaPOS_stock_insuficiente_witness :
    ∃ pid, crearFacturaPOS dbC8 reqC8 = (.error (.stockInsuficiente pid), dbC8) ∧
      PosError.status (.stockInsuficiente pid) = 400 := by
  apply crearFacturaPOS_stock_insuficiente dbC8 reqC8
    (by decide) (by decide)
    (by decide)
  exact ⟨{ id_producto := "P1", cantidad := 2, precio_unitario := 0 },
    by decide,
    { id_producto := "P1", descripcion := "Vino", stock := 1, precio_venta := 10 },
    by decide, by norm_num⟩

/-- C9: on every successful POS invoice creation, with S the raw
accumulated subtotal of the validated items, the stored subtotal is
round3 of S, the tax amount is round3 of S times the tax rate over 100,
and the stored total is round3 of S plus that tax amount. -/
theorem crearFacturaPOS_totales (db : PosDB) (req : PosRequest) (iva : Iva)
    (S : ℚ) (dets : List DetallePos) (f : Factura) (db2 : PosDB)
    (hiva : db.ivas.find? (fun i => i.id_iva == req.id_iva) = some iva)
    (hval : validarItemsPOS db.productos req.items = .ok (S, dets))
    (h : crearFacturaPOS db req = (.ok f, db2)) :
    f.subtotal = round3 S ∧
      f.total = round3 (S + round3 (S * iva.porcentaje / 100)) := by
  unfold crearFacturaPOS at h
  split at h
  · simp at h
  · rw [hiva, hval] at h
    simp only [Prod.mk.injEq, PosResultado.ok.injEq] at h
    rw [← h.1]
    exact ⟨rfl, rfl⟩

/-- Concrete database for the C9 witness (Scenario E). -/
def dbC9 : PosDB :=
  { clientes := [{ id_cliente := 7, ruc_cedula := "0102030405" }]
    ivas := [{ id_iva := 3, porcentaje := 12 }]
    productos := [{ id_producto := "P1", descripcion := "Ron", stock := 5,
                    precio_venta := 100 }]
    facturas := []
    detalles_factura := [] }

/-- Concrete request for the C9 witness: one unit at the catalog price
of 100, yielding subtotal 100.000. -/
def reqC9 : PosRequest :=
  { cedula := "0102030405"
    items := [{ id_producto := "P1", cantidad := 1, precio_unitario := 0 }]
    id_iva := 3
    anio := 2025 }

/-- The validated lines of the C9 witness. -/
def detsC9 : List DetallePos :=
  [{ id_producto := "P1", cantidad := 1, precio_unitario := 100, subtotal := 100 }]

/-- The invoice created by the C9 witness. -/
def fC9 : Factura :=
  { id_factura := ['F', '-', '2', '0', '2', '5', '-', '0', '0', '0', '0', '0', '1']
    id_cliente := 7, id_canal := "POS", id_metodo_pago := 1, id_iva := 3,
    subtotal := 100, total := 112, estado := "EMI" }

/-- C9 witness: Scenario E, the 12 percent tax applied to subtotal
100.000 yields total 112.000. -/
theorem crearFacturaPOS_totales_witness :
    (crearFacturaPOS dbC9 reqC9).1 = .ok fC9 ∧
      fC9.total = round3 (100 + round3 (100 * 12 / 100)) ∧
      fC9.total = 112 := by
  have h := crearFacturaPOS_totales dbC9 reqC9 { id_iva := 3, porcentaje := 12 }
    100 detsC9 fC9 (crearFacturaPOS dbC9 reqC9).2
    (by decide) (by rfl)
    (by decide)
  exact ⟨by decide, h.2, by decide⟩

end Backend
